import Mathlib

/-!
# Verification of the Batch-Processor repository

A shallow embedding of the repository's components, followed by theorems
settling the specification claims.

Modelling conventions, used throughout:

* JavaScript arrays are `List`s; `push` appends at the end, `pop` takes the
  last element (`getLast?` / `dropLast`), `shift` takes the head (`drop 1`).
* Timestamps (`new Date()`) are natural numbers of milliseconds, threaded
  through as an explicit `now` parameter.  Within a single synchronous event
  handler the clock is constant.
* The log files are modelled at the granularity the code reads and writes
  them: a file is the list of its parsed JSON lines (`LogEntry`); appends add
  an entry, the remove-failure rewrite deletes one entry.  Byte-level details
  (trailing newline kept by `split`/`join`, the extra blank line after error
  entries) are not observable at this level and are elided.
* A JavaScript `throw` that the source catches is modelled by returning the
  unchanged state; a `throw` that escapes (crashing the calling thread or
  process) is modelled by `Except.error` or by a `fatal` flag that stops all
  further processing.
* External collaborators (the user-supplied `execute` handler, the user
  callbacks, `console.log`) have no effect on the modelled state; calls into
  them are either recorded in explicit trace fields or elided.
-/

namespace BatchProcessor

/-! ## LogManager (src/logManager.js)

State of a `LogManager` instance plus the contents of its three log files.
-/

/-- One parsed line of a log file: `{"<iterableName>": iterated, "details"|"error": payload}`.
For success/failure entries `payload` is the `details` string, for error
entries it is the stack string. -/
structure LogEntry where
  iterated : String
  payload : String
deriving DecidableEq, Repr

/-- One element of `logQueue`: the `{type, data}` objects built by
`logSuccess` / `logFailure` / `logError` / `logRetrySuccess`. -/
inductive LogTask where
  | success (iterated details : String)
  | failure (iterated details : String)
  | error (iterated stack : String)
  | rmFailure (iterated : String)
deriving DecidableEq, Repr

/-- The mutable state of a `LogManager` together with the contents of the
three files it owns.  `hasLogPath` models `this.logPath` being set (the
constructor returns early when `config.logLocation` is absent).
`processedTrace` records, in order, every task the drain loop of
`processQueue` has handled; it is an observer added for specification
purposes and is written exactly once per handled task. -/
structure LogManagerState where
  hasLogPath : Bool
  logQueue : List LogTask
  processing : Bool
  successFile : List LogEntry
  failureFile : List LogEntry
  errorsFile : List LogEntry
  processedTrace : List LogTask
deriving DecidableEq, Repr

/-- `processRmFailure`'s scan: find the first line whose `iterableName` field
equals `iterated` and splice it out; if none matches, leave the file alone.
(The source computes the first matching index with a `for` loop that `break`s
on the first hit, then `splice`s it out; JSON-unparsable lines are skipped by
the `try/catch`, and every line this model stores is parsable.) -/
def rmFirstFailure (entries : List LogEntry) (iterated : String) : List LogEntry :=
  match entries with
  | [] => []
  | e :: rest =>
    if e.iterated == iterated then rest else e :: rmFirstFailure rest iterated

/-- Spec-comparison definition, modelled from the spec's words for
`retrySuccess` step (a): "scan the failure stream, find the **last** entry
matching `item`, remove it by rewriting the stream without that line".  It is
not a translation of the source; it exists to be compared with
`rmFirstFailure`, which is. -/
def rmLastFailureSpec (entries : List LogEntry) (iterated : String) : List LogEntry :=
  match entries with
  | [] => []
  | e :: rest =>
    if (rest.filter (fun e' => e'.iterated == iterated)).isEmpty then
      if e.iterated == iterated then rest else e :: rmLastFailureSpec rest iterated
    else e :: rmLastFailureSpec rest iterated

/-- `processSuccess`: append `{"<iterableName>": iterated, "details": details}`
to the success file. -/
def processSuccess (lm : LogManagerState) (iterated details : String) : LogManagerState :=
  {lm with successFile := lm.successFile ++ [⟨iterated, details⟩]}

/-- `processFailure`: append to the failure file. -/
def processFailure (lm : LogManagerState) (iterated details : String) : LogManagerState :=
  {lm with failureFile := lm.failureFile ++ [⟨iterated, details⟩]}

/-- `processError`: append `{"<iterableName>": iterated, "error": stack}` to
the errors file. -/
def processError (lm : LogManagerState) (iterated stack : String) : LogManagerState :=
  {lm with errorsFile := lm.errorsFile ++ [⟨iterated, stack⟩]}

/-- `processRmFailure`: read the failure file, remove the first entry matching
`iterated` (no-op when none matches), write the file back. -/
def processRmFailure (lm : LogManagerState) (iterated : String) : LogManagerState :=
  {lm with failureFile := rmFirstFailure lm.failureFile iterated}

/-- The dispatch in the body of `processQueue`'s loop: run the processor
selected by `logTask.type` and record the task in the trace.  The source's
`try/catch` around the body (write errors are logged and swallowed) has no
counterpart here because the modelled processors cannot fail. -/
def applyTask (lm : LogManagerState) (t : LogTask) : LogManagerState :=
  let lm :=
    match t with
    | LogTask.success iterated details => processSuccess lm iterated details
    | LogTask.failure iterated details => processFailure lm iterated details
    | LogTask.error iterated stack => processError lm iterated stack
    | LogTask.rmFailure iterated => processRmFailure lm iterated
  {lm with processedTrace := lm.processedTrace ++ [t]}

/-- The `for (const logTask of logManager.logQueue)` loop of `processQueue`,
with JavaScript's live-array iteration semantics: the array iterator yields
`logQueue[idx]` for the current value of the array, the body then `shift`s the
queue and runs the processor.  (The processors, `processX`, are `async` and
are invoked without `await`; their file effects are modelled as applied in
invocation order, which is the order the `fs` operations are issued.) -/
def processQueueLoop (lm : LogManagerState) (idx : Nat) : LogManagerState :=
  if h : idx < lm.logQueue.length then
    let t := lm.logQueue.get ⟨idx, h⟩
    let lm' := applyTask {lm with logQueue := lm.logQueue.drop 1} t
    processQueueLoop lm' (idx + 1)
  else lm
termination_by lm.logQueue.length
decreasing_by
  cases lm.logQueue.get ⟨idx, h⟩ <;>
    simp only [applyTask, processSuccess, processFailure, processError, processRmFailure,
      List.length_drop] <;>
  omega

/-- `processQueue`: set the `processing` flag, run the drain loop, clear the
flag.  The loop body is synchronous, so the whole call completes before
control returns to the enqueuer. -/
def processQueue (lm : LogManagerState) : LogManagerState :=
  let lm := processQueueLoop {lm with processing := true} 0
  {lm with processing := false}

/-- `addToQueue`: no-op without a log path; otherwise push the task and, when
no drain loop is marked active, run `processQueue`. -/
def addToQueue (lm : LogManagerState) (t : LogTask) : LogManagerState :=
  if !lm.hasLogPath then lm
  else
    let lm := {lm with logQueue := lm.logQueue ++ [t]}
    if !lm.processing then processQueue lm else lm

/-- `logSuccess`. -/
def logSuccess (lm : LogManagerState) (iterated details : String) : LogManagerState :=
  addToQueue lm (LogTask.success iterated details)

/-- `logFailure`. -/
def logFailure (lm : LogManagerState) (iterated details : String) : LogManagerState :=
  addToQueue lm (LogTask.failure iterated details)

/-- `logError` (the payload is `error.stack`). -/
def logError (lm : LogManagerState) (iterated stack : String) : LogManagerState :=
  addToQueue lm (LogTask.error iterated stack)

/-- `logRetrySuccess`: enqueue a remove-failure task, then a success task. -/
def logRetrySuccess (lm : LogManagerState) (iterated details : String) : LogManagerState :=
  addToQueue (addToQueue lm (LogTask.rmFailure iterated)) (LogTask.success iterated details)

/-- A fresh `LogManager` constructed with a `logLocation`: empty queue, idle,
empty files (`ensureFile` creates them empty). -/
def initLogManager : LogManagerState :=
  { hasLogPath := true, logQueue := [], processing := false,
    successFile := [], failureFile := [], errorsFile := [], processedTrace := [] }

/-! ## StatsTracker (src/statsTracker.js)

JavaScript numbers are modelled as `JsNum`: a finite rational or one of the
IEEE-754 special values that the statistics code can actually produce.  The
integers and the divisions involved are exact in `ℚ`. -/

/-- A JavaScript number as far as the statistics computation can observe it:
finite, `Infinity`, `-Infinity` or `NaN`. -/
inductive JsNum where
  | fin (q : ℚ)
  | inf
  | negInf
  | nan
deriving DecidableEq, Repr

/-- JavaScript division of two finite numbers: division by zero yields
`NaN` for `0 / 0` and a signed infinity otherwise. -/
def jsDivQ (a b : ℚ) : JsNum :=
  if b = 0 then (if a = 0 then JsNum.nan else if a > 0 then JsNum.inf else JsNum.negInf)
  else JsNum.fin (a / b)

/-- JavaScript division on `JsNum` (the cases reachable in this code). -/
def jsDiv : JsNum → JsNum → JsNum
  | JsNum.fin a, JsNum.fin b => jsDivQ a b
  | JsNum.fin _, JsNum.inf => JsNum.fin 0
  | JsNum.fin _, JsNum.negInf => JsNum.fin 0
  | JsNum.inf, JsNum.fin b => if b < 0 then JsNum.negInf else JsNum.inf
  | JsNum.negInf, JsNum.fin b => if b < 0 then JsNum.inf else JsNum.negInf
  | _, _ => JsNum.nan

/-- JavaScript multiplication on `JsNum` (the cases reachable in this code). -/
def jsMul : JsNum → JsNum → JsNum
  | JsNum.fin a, JsNum.fin b => JsNum.fin (a * b)
  | JsNum.fin a, JsNum.inf => if a = 0 then JsNum.nan else if a > 0 then JsNum.inf else JsNum.negInf
  | JsNum.inf, JsNum.fin b => if b = 0 then JsNum.nan else if b > 0 then JsNum.inf else JsNum.negInf
  | JsNum.fin a, JsNum.negInf => if a = 0 then JsNum.nan else if a > 0 then JsNum.negInf else JsNum.inf
  | JsNum.negInf, JsNum.fin b => if b = 0 then JsNum.nan else if b > 0 then JsNum.negInf else JsNum.inf
  | JsNum.inf, JsNum.inf => JsNum.inf
  | JsNum.negInf, JsNum.negInf => JsNum.inf
  | JsNum.inf, JsNum.negInf => JsNum.negInf
  | JsNum.negInf, JsNum.inf => JsNum.negInf
  | _, _ => JsNum.nan

/-- JavaScript addition on `JsNum` (the cases reachable in this code). -/
def jsAdd : JsNum → JsNum → JsNum
  | JsNum.fin a, JsNum.fin b => JsNum.fin (a + b)
  | JsNum.fin _, JsNum.inf => JsNum.inf
  | JsNum.inf, JsNum.fin _ => JsNum.inf
  | JsNum.fin _, JsNum.negInf => JsNum.negInf
  | JsNum.negInf, JsNum.fin _ => JsNum.negInf
  | JsNum.inf, JsNum.inf => JsNum.inf
  | JsNum.negInf, JsNum.negInf => JsNum.negInf
  | _, _ => JsNum.nan

/-- `Number.prototype.toFixed(2)` followed by the numeric coercion the result
undergoes when it is used in later arithmetic: finite values are rounded to
two decimals (ties approximated by `round`, which is exact for every value
the claims evaluate), and `"Infinity"` / `"NaN"` coerce back to themselves. -/
def toFixed2 : JsNum → JsNum
  | JsNum.fin q => JsNum.fin ((round (q * 100) : ℤ) / (100 : ℚ))
  | JsNum.inf => JsNum.inf
  | JsNum.negInf => JsNum.negInf
  | JsNum.nan => JsNum.nan

/-- The `hourly` helper: `((stat * hour) / runtime).toFixed(2)` with
`hour = 1000 * 60 * 60`.  There is no guard for `runtime = 0`. -/
def hourly (stat runtime : Nat) : JsNum :=
  toFixed2 (jsDivQ ((stat : ℚ) * (1000 * 60 * 60)) (runtime : ℚ))

/-- The fields of a `StatsTracker` instance.  Counter fields that only ever
receive `++` are `Nat`; `failed` also receives `--` (retry reconciliation) and
is an `Int`.  The derived `h*` / completion fields hold whatever JavaScript
number the last recomputation produced. -/
structure StatsTracker where
  startTime : Nat
  runTime : Nat
  completionTime : JsNum
  completionHours : JsNum
  totalTasks : Nat
  processedTasks : Nat
  hProcessedTasks : JsNum
  remainingTasks : Int
  successful : Nat
  hSuccessful : JsNum
  failed : Int
  hFailed : JsNum
  errors : Nat
  hErrors : JsNum
deriving DecidableEq, Repr

/-- A freshly constructed `StatsTracker` at time `now`. -/
def initStats (now : Nat) : StatsTracker :=
  { startTime := now, runTime := now, completionTime := JsNum.fin (now : ℚ),
    completionHours := JsNum.fin 0, totalTasks := 0, processedTasks := 0,
    hProcessedTasks := JsNum.fin 0, remainingTasks := 0, successful := 0,
    hSuccessful := JsNum.fin 0, failed := 0, hFailed := JsNum.fin 0,
    errors := 0, hErrors := JsNum.fin 0 }

/-- `updateCalculatedFields`, evaluated at wall-clock time `now`: an early
return when `totalTasks == 0`, otherwise the derived fields are recomputed.
`failed` can in principle be negative; `hFailed` uses its value exactly as
JavaScript would (`hourlyInt` below extends `hourly` to an `Int` counter). -/
def hourlyInt (stat : Int) (runtime : Nat) : JsNum :=
  toFixed2 (jsDivQ ((stat : ℚ) * (1000 * 60 * 60)) (runtime : ℚ))

/-- See `hourlyInt` just above for the `failed` counter; the remaining
recomputations follow src/statsTracker.js lines 28-39 verbatim. -/
def updateCalculatedFields (st : StatsTracker) (now : Nat) : StatsTracker :=
  if st.totalTasks = 0 then st
  else
    let runTime := now - st.startTime
    let remainingTasks : Int := (st.totalTasks : Int) - (st.processedTasks : Int)
    let hProcessedTasks := hourly st.processedTasks runTime
    let hSuccessful := hourly st.successful runTime
    let hFailed := hourlyInt st.failed runTime
    let hErrors := hourly st.errors runTime
    let completionHours := toFixed2 (jsDiv (JsNum.fin (remainingTasks : ℚ)) hProcessedTasks)
    let completionTime := jsAdd (JsNum.fin (now : ℚ)) (jsMul completionHours (JsNum.fin (60 * 60 * 1000)))
    { st with
        runTime := runTime
        remainingTasks := remainingTasks
        hProcessedTasks := hProcessedTasks
        hSuccessful := hSuccessful
        hFailed := hFailed
        hErrors := hErrors
        completionHours := completionHours
        completionTime := completionTime }

/-! ## WorkerThread (src/workerThread.js)

Only the state a worker-side `handleMessage` touches is modelled: the
readiness flag, the startup queue, and a trace of the items handed to
`processTask` (which calls the external `execute` handler and then reports a
`complete` message).  Items are a generic type `τ`. -/

/-- Worker-side state.  `executedTrace` records every item passed to
`processTask`. -/
structure WorkerThreadState (τ : Type) where
  ready : Bool
  queue : List τ
  executedTrace : List τ
deriving DecidableEq, Repr

/-- A message arriving on the worker's `parentPort`.  `workNext none` models a
`workNext` message whose `iterableItem` is falsy (`!message.iterableItem`);
`other ty` models any message whose `type` is not `workNext`. -/
inductive MainMsg (τ : Type) where
  | workNext (item : Option τ)
  | other (ty : String)
deriving DecidableEq, Repr

/-- `WorkerThread.handleMessage`.  The two `throw new Error(...)` statements
are **uncaught** in the worker's message listener, so they escape the handler
(crashing the worker thread); this is modelled by `Except.error` carrying the
error message. -/
def workerHandleMessage (w : WorkerThreadState τ) (m : MainMsg τ) :
    Except String (WorkerThreadState τ) :=
  match m with
  | MainMsg.other _ => Except.error "Unknown message type from main thread."
  | MainMsg.workNext none => Except.error "No iterableItem in workNext message."
  | MainMsg.workNext (some item) =>
    Except.ok (if w.ready then {w with executedTrace := w.executedTrace ++ [item]}
               else {w with queue := w.queue ++ [item]})

/-! ## Work-list validation (src/mainThread.js, setIterable)

`setIterable` receives an arbitrary JavaScript value.  `JsValue` covers the
shapes that distinguish the validation's branches: `undefined`/`null` (both
caught by `iterable == undefined`), arrays and strings (iterable: their
`Symbol.iterator` property is a function), and numbers / plain objects
(non-iterable: the property is `undefined`). -/

/-- A JavaScript value passed to `setIterable`. -/
inductive JsValue (τ : Type) where
  | undef
  | null
  | arr (xs : List τ)
  | str (s : String)
  | num (n : Int)
  | plainObj
deriving DecidableEq, Repr

/-- Whether `v[Symbol.iterator]` is a function — the test
`typeof(iterable)[Symbol.iterator] !== 'function'` applies `typeof` to the
member `iterable[Symbol.iterator]` (member access binds tighter than the
unary `typeof`). -/
def hasSymbolIterator : JsValue τ → Bool
  | JsValue.arr _ => true
  | JsValue.str _ => true
  | _ => false

/-- `setIterable`: reject `undefined`/`null`, reject values without a
`Symbol.iterator` function, otherwise store the value as `main.iterable`.
A thrown error means `main.iterable` keeps its previous value. -/
def setIterable [DecidableEq τ] (v : JsValue τ) : Except String (JsValue τ) :=
  if v = JsValue.undef ∨ v = JsValue.null then
    Except.error "You must provide and iterable object."
  else if !hasSymbolIterator v then
    Except.error "This object is not iterable."
  else Except.ok v

/-! ## MainThread (src/mainThread.js)

The orchestrator state, over a generic item type `τ`.  Fields mirror the
instance properties of `MainThread`; the extra fields `fatal`, `completed`,
`dispatched`, `spawned`, `terminated` and `logCalls` are observers:

* `fatal` — a `throw` escaped `handleError` (killing the process);
* `completed` — `onAllWorkAssigned` ran (intervals cleared, final stats
  logged, the completion callback fired);
* `dispatched` — every `postMessage({type: "workNext", ...})`, in order;
* `spawned` / `terminated` — the `threadId`s of every `new Worker(...)` /
  `worker.terminate()`, in order;
* `logCalls` — every call into the `LogManager` front-end, in order (the
  `LogManagerState` development above gives the file-level meaning of these
  calls).

Thread ids are modelled as consecutive naturals from `nextThreadId`,
starting at 1 (worker-thread ids in Node are nonzero, which the code relies
on in `handleError`'s `if (worker.threadId)`). -/

section MainThread

variable {τ : Type} [DecidableEq τ]

/-- One element of `worker.currentTasks`: `{start: new Date(), task: nextIterable}`. -/
structure TaskRec (τ : Type) where
  start : Nat
  task : τ
deriving DecidableEq, Repr

/-- One worker handle as the orchestrator sees it. -/
structure Worker (τ : Type) where
  threadId : Nat
  sent : Nat
  received : Nat
  currentTasks : List (TaskRec τ)
  stopping : Bool
deriving DecidableEq, Repr

/-- The counter fields of the orchestrator's `StatTracker` that the
orchestrator reads or writes.  (The derived display fields recomputed by
`stats.log()` are modelled by `StatsTracker`/`updateCalculatedFields` above
and are never read back by the orchestrator.)  `failed` receives `--` in
`onSuccessMessage`, hence `Int`. -/
structure CoreStats where
  startTime : Nat
  totalTasks : Nat
  processedTasks : Nat
  successful : Nat
  failed : Int
  errors : Nat
deriving DecidableEq, Repr

/-- A call into the `LogManager` front-end recorded by the orchestrator. -/
inductive LogCall (τ : Type) where
  | success (item : τ) (details : String)
  | retrySuccess (item : τ) (details : String)
  | failure (item : τ) (details : String)
  | error (item : τ) (stack : String)
deriving DecidableEq, Repr

/-- The orchestrator state. -/
structure MainState (τ : Type) where
  workers : List (Worker τ)
  iterable : List τ
  iterableSet : Bool
  processing : Bool
  retryStarted : Bool
  retryFailed : Bool
  failedTasks : List τ
  parallelProcesses : Nat
  threads : Nat
  stats : CoreStats
  recentErrors : Nat
  pendingDecrements : List Nat
  nextThreadId : Nat
  fatal : Bool
  completed : Bool
  dispatched : List τ
  spawned : List Nat
  terminated : List Nat
  logCalls : List (LogCall τ)
deriving DecidableEq, Repr

/-- A freshly constructed orchestrator (constructor of `MainThread`):
`iterable` is undefined, nothing is processing, no retry has started. -/
def initMain (threads parallelProcesses : Nat) (retryOnFail : Bool) : MainState τ :=
  { workers := [], iterable := [], iterableSet := false, processing := false,
    retryStarted := false, retryFailed := retryOnFail, failedTasks := [],
    parallelProcesses := parallelProcesses, threads := threads,
    stats := { startTime := 0, totalTasks := 0, processedTasks := 0,
               successful := 0, failed := 0, errors := 0 },
    recentErrors := 0, pendingDecrements := [], nextThreadId := 1,
    fatal := false, completed := false, dispatched := [], spawned := [],
    terminated := [], logCalls := [] }

/-- The assignment `main.iterable = iterable` after `setIterable`'s
validation succeeded on an array (the validation itself is `setIterable`
above). -/
def setIterableList (s : MainState τ) (xs : List τ) : MainState τ :=
  {s with iterable := xs, iterableSet := true}

/-- `removeObjectFrom(array, 'threadId', value)`: splice out the first
element whose `threadId` equals `value`, returning the removed element (or
`none`) together with the remaining array. -/
def removeObjectFromWorkers (ws : List (Worker τ)) (tid : Nat) :
    Option (Worker τ) × List (Worker τ) :=
  match ws with
  | [] => (none, [])
  | w :: rest =>
    if w.threadId = tid then (some w, rest)
    else
      let p := removeObjectFromWorkers rest tid
      (p.1, w :: p.2)

/-- `removeObjectFrom(worker.currentTasks, "task", task)` in
`onTaskCompletion`: splice out the first record for `task`. -/
def removeFirstTask (ts : List (TaskRec τ)) (x : τ) : List (TaskRec τ) :=
  match ts with
  | [] => []
  | t :: rest => if t.task = x then rest else t :: removeFirstTask rest x

/-- The worker selection in `removeWorker`: a truthy `threadId` argument
selects (and splices out) that worker, otherwise `workers.pop()` takes the
most recently added one. -/
def selectWorker (s : MainState τ) (tid : Option Nat) :
    Option (Worker τ) × List (Worker τ) :=
  match tid with
  | some t =>
    if t ≠ 0 then removeObjectFromWorkers s.workers t
    else (s.workers.getLast?, s.workers.dropLast)
  | none => (s.workers.getLast?, s.workers.dropLast)

/-- `removeWorker(threadId?, immediate?)`.  With `immediate` the selected
worker is terminated; otherwise the (already detached) worker object is only
marked `stopping` — its thread keeps finishing the items already assigned to
it.  Returns whether a worker was selected. -/
def removeWorker (s : MainState τ) (tid : Option Nat) (immediate : Bool) :
    Bool × MainState τ :=
  match selectWorker s tid with
  | (none, _) => (false, s)
  | (some w, ws) =>
    if immediate then
      (true, {s with workers := ws, terminated := s.terminated ++ [w.threadId]})
    else (true, {s with workers := ws})

/-- Apply `f` to the worker object with thread id `tid` (the in-place
mutation of the worker object held in `main.workers`). -/
def updateWorker (s : MainState τ) (tid : Nat) (f : Worker τ → Worker τ) : MainState τ :=
  {s with workers := s.workers.map (fun w => if w.threadId = tid then f w else w)}

/-- Look up the worker object with thread id `tid`. -/
def findWorker (s : MainState τ) (tid : Nat) : Option (Worker τ) :=
  s.workers.find? (fun w => w.threadId = tid)

/-- `taskCondition(worker)`. -/
def taskCondition (s : MainState τ) (w : Worker τ) : Bool :=
  s.processing && decide (0 < s.iterable.length) && !w.stopping

/-- `retryCondition()`. -/
def retryCondition (s : MainState τ) : Bool :=
  decide (s.iterable.length ≤ 0) && s.processing && s.retryFailed && !s.retryStarted

/-- `beginRetry()`: mark the retry started and, when there are failed tasks,
add their number to the total-task count and make them the new pending
queue.  `failedTasks` itself is **not** cleared. -/
def beginRetry (s : MainState τ) : MainState τ :=
  let s := {s with retryStarted := true}
  if 0 < s.failedTasks.length then
    {s with stats.totalTasks := s.stats.totalTasks + s.failedTasks.length,
            iterable := s.failedTasks}
  else s

/-- `onAllWorkAssigned()`: clears the auto-log and hung-scan intervals, logs
a final stats snapshot, and fires the completion callback; all four effects
are summarised by the `completed` observer. -/
def onAllWorkAssigned (s : MainState τ) : MainState τ :=
  {s with completed := true}

/-- Termination measure for the mutual recursion between `manageIdleWorker`
and `assignNextTask`: a dispatch consumes one pending item, and `beginRetry`
(which can refill the queue from `failedTasks`) fires at most once because it
sets `retryStarted`. -/
def muMain (s : MainState τ) : Nat :=
  (if s.retryStarted then 0 else 2 * s.failedTasks.length + 2) + 2 * s.iterable.length

mutual

/-- `manageIdleWorker(worker)`: possibly begin the retry pass, then either
hand the worker another task, or — when it has received everything it was
sent — terminate it, finishing the run when it was the last worker. -/
def manageIdleWorker (now : Nat) (s : MainState τ) (tid : Nat) : MainState τ :=
  let s1 := if retryCondition s then beginRetry s else s
  match findWorker s1 tid with
  | none => s1
  | some w =>
    if taskCondition s1 w then assignNextTask now s1 tid
    else if w.sent ≤ w.received then
      let s2 := (removeWorker s1 (some tid) true).2
      if s2.workers.length < 1 then onAllWorkAssigned s2 else s2
    else s1
termination_by muMain s + 1
decreasing_by
  simp only [muMain, beginRetry]
  split
  next hrc =>
    simp only [retryCondition, Bool.and_eq_true, decide_eq_true_eq,
      Bool.not_eq_true'] at hrc
    obtain ⟨⟨⟨hlen, _⟩, _⟩, hstarted⟩ := hrc
    split <;> simp [hstarted, hlen] <;> omega
  next => omega

/-- `assignNextTask(worker)`: `pop` the most recently added pending item,
post it to the worker, bump `sent`, record the in-flight task, and let the
worker pull again while below its parallel-processing capacity.  (The `none`
branch — `pop` on an empty queue — is unreachable because the caller checked
`taskCondition`.) -/
def assignNextTask (now : Nat) (s : MainState τ) (tid : Nat) : MainState τ :=
  match hl : s.iterable.getLast? with
  | none => s
  | some nextIterable =>
    let s2 := {s with iterable := s.iterable.dropLast,
                      dispatched := s.dispatched ++ [nextIterable]}
    let s3 := updateWorker s2 tid (fun w =>
      {w with sent := w.sent + 1,
              currentTasks := w.currentTasks ++ [⟨now, nextIterable⟩]})
    match findWorker s3 tid with
    | none => s3
    | some w =>
      if w.sent - w.received < s3.parallelProcesses then manageIdleWorker now s3 tid
      else s3
termination_by muMain s
decreasing_by
  have hne : s.iterable ≠ [] := by
    intro he
    rw [he] at hl
    simp at hl
  have hpos : 0 < s.iterable.length := List.length_pos.mpr hne
  simp only [muMain, updateWorker, List.length_dropLast]
  omega

end

/-- Facts preserved or monotone along `manageIdleWorker`/`assignNextTask`:
the idle-worker management never touches the crash counter, the scheduled
decrements, the fatal flag, the spawn trace, the thread-id counter or the
log-call trace; it can only shrink the worker pool; and it only appends to
the dispatch trace.  Packaged as a `Prop`-valued structure because the
termination argument of `recycleLoop` below needs the pool bound. -/
structure ManageTail (s s' : MainState τ) : Prop where
  recentErrors : s'.recentErrors = s.recentErrors
  pendingDecrements : s'.pendingDecrements = s.pendingDecrements
  fatal : s'.fatal = s.fatal
  spawned : s'.spawned = s.spawned
  nextThreadId : s'.nextThreadId = s.nextThreadId
  logCalls : s'.logCalls = s.logCalls
  workersLen : s'.workers.length ≤ s.workers.length
  dispatchedPrefix : s.dispatched <+: s'.dispatched
  terminatedExt : ∃ r, s'.terminated = s.terminated ++ r

/-- `ManageTail` is reflexive. -/
def manageTailId {s : MainState τ} : ManageTail s s :=
  ⟨rfl, rfl, rfl, rfl, rfl, rfl, Nat.le_refl _, List.prefix_refl _,
   ⟨[], (List.append_nil _).symm⟩⟩

/-- `ManageTail` composes. -/
def manageTailComp {s s1 s2 : MainState τ} (h1 : ManageTail s s1)
    (h2 : ManageTail s1 s2) : ManageTail s s2 :=
  ⟨h2.recentErrors.trans h1.recentErrors, h2.pendingDecrements.trans h1.pendingDecrements,
   h2.fatal.trans h1.fatal, h2.spawned.trans h1.spawned,
   h2.nextThreadId.trans h1.nextThreadId, h2.logCalls.trans h1.logCalls,
   Nat.le_trans h2.workersLen h1.workersLen,
   h1.dispatchedPrefix.trans h2.dispatchedPrefix,
   match h1.terminatedExt, h2.terminatedExt with
   | ⟨a, ha⟩, ⟨b, hb⟩ => ⟨a ++ b, by rw [hb, ha, List.append_assoc]⟩⟩

/-- `beginRetry` satisfies `ManageTail`. -/
def beginRetryTail (s : MainState τ) : ManageTail s (beginRetry s) := by
  simp only [beginRetry]
  split <;>
    exact ⟨rfl, rfl, rfl, rfl, rfl, rfl, Nat.le_refl _, List.prefix_refl _,
      ⟨[], (List.append_nil _).symm⟩⟩

/-- Splicing out a worker cannot lengthen the pool. -/
def removeObjectLen : (ws : List (Worker τ)) → (tid : Nat) →
    (removeObjectFromWorkers ws tid).2.length ≤ ws.length
  | [], _ => Nat.le_refl _
  | w :: rest, tid => by
    simp only [removeObjectFromWorkers]
    split
    · simp
    · simpa using Nat.succ_le_succ (removeObjectLen rest tid)

/-- Splicing out a worker whose id is present shortens the pool by one. -/
def removeObjectLenOfMem : (ws : List (Worker τ)) → (tid : Nat) →
    tid ∈ ws.map Worker.threadId →
    (removeObjectFromWorkers ws tid).2.length + 1 = ws.length
  | [], _, h => by simp at h
  | w :: rest, tid, h => by
    simp only [removeObjectFromWorkers]
    split
    · simp
    next hne =>
      have hmem : tid ∈ rest.map Worker.threadId := by
        simp only [List.map_cons, List.mem_cons] at h
        rcases h with h | h
        · exact absurd h.symm hne
        · exact h
      simpa using removeObjectLenOfMem rest tid hmem

/-- The selection cannot lengthen the pool. -/
def selectWorkerLen (s : MainState τ) (tid : Option Nat) :
    (selectWorker s tid).2.length ≤ s.workers.length := by
  have hdl : (s.workers.dropLast).length ≤ s.workers.length := by
    simp only [List.length_dropLast]
    omega
  unfold selectWorker
  rcases tid with _ | t
  · exact hdl
  · dsimp only
    by_cases ht : t ≠ 0
    · rw [if_pos ht]
      exact removeObjectLen s.workers t
    · rw [if_neg ht]
      exact hdl

/-- `removeWorker` satisfies `ManageTail`. -/
def removeWorkerTail (s : MainState τ) (tid : Option Nat) (im : Bool) :
    ManageTail s (removeWorker s tid im).2 := by
  unfold removeWorker
  rcases hp : selectWorker s tid with ⟨_ | w, ws⟩
  · exact manageTailId
  · have hlen : ws.length ≤ s.workers.length := by
      have := selectWorkerLen s tid
      rw [hp] at this
      exact this
    dsimp only
    split
    · exact ⟨rfl, rfl, rfl, rfl, rfl, rfl, hlen, List.prefix_refl _, ⟨[w.threadId], rfl⟩⟩
    · exact ⟨rfl, rfl, rfl, rfl, rfl, rfl, hlen, List.prefix_refl _,
        ⟨[], (List.append_nil _).symm⟩⟩

/-- Under `retryCondition`, `beginRetry` strictly decreases the recursion
measure. -/
def beginRetryMu (s : MainState τ) (h : retryCondition s = true) :
    muMain (beginRetry s) ≤ muMain s := by
  simp only [retryCondition, Bool.and_eq_true, decide_eq_true_eq,
    Bool.not_eq_true'] at h
  obtain ⟨⟨⟨hlen, _⟩, _⟩, hstarted⟩ := h
  simp only [muMain, beginRetry]
  split <;> simp [hstarted] <;> omega

/-- The `ManageTail` facts for `manageIdleWorker` and `assignNextTask`, by
strong induction on the recursion measure. -/
def manageTailAux : (n : Nat) →
    (∀ (now : Nat) (s : MainState τ) (tid : Nat), muMain s ≤ n →
      ManageTail s (manageIdleWorker now s tid)) ∧
    (∀ (now : Nat) (s : MainState τ) (tid : Nat), muMain s ≤ n →
      ManageTail s (assignNextTask now s tid)) := by
  intro n
  induction n using Nat.strong_induction_on with
  | _ n ih =>
  have hassign : ∀ (now : Nat) (s : MainState τ) (tid : Nat), muMain s ≤ n →
      ManageTail s (assignNextTask now s tid) := by
    intro now s tid hmu
    rw [assignNextTask]
    split
    · exact manageTailId
    next nextIterable hl =>
      have hne : s.iterable ≠ [] := by
        intro he
        rw [he] at hl
        simp at hl
      have hpos : 0 < s.iterable.length := List.length_pos.mpr hne
      set s3 := updateWorker
          {s with iterable := s.iterable.dropLast,
                  dispatched := s.dispatched ++ [nextIterable]} tid (fun w =>
            {w with sent := w.sent + 1,
                    currentTasks := w.currentTasks ++ [⟨now, nextIterable⟩]}) with hs3def
      have hstep : ManageTail s s3 :=
        ⟨rfl, rfl, rfl, rfl, rfl, rfl, by simp [hs3def, updateWorker],
         by rw [hs3def]; exact List.prefix_append _ _,
         ⟨[], (List.append_nil _).symm⟩⟩
      have hmu3 : muMain s3 + 2 = muMain s := by
        simp only [muMain, hs3def, updateWorker, List.length_dropLast]
        omega
      rcases hfw : findWorker s3 tid with _ | w
      · simp only [hfw]
        exact hstep
      · simp only [hfw]
        split
        · exact manageTailComp hstep
            ((ih (muMain s3) (by omega)).1 now s3 tid (Nat.le_refl _))
        · exact hstep
  refine ⟨?_, hassign⟩
  intro now s tid hmu
  rw [manageIdleWorker]
  have hs1 : ManageTail s (if retryCondition s then beginRetry s else s) ∧
      muMain (if retryCondition s then beginRetry s else s) ≤ muMain s := by
    split
    next hrc => exact ⟨beginRetryTail s, beginRetryMu s hrc⟩
    next => exact ⟨manageTailId, Nat.le_refl _⟩
  set s1 := if retryCondition s then beginRetry s else s with hs1def
  rcases hfw : findWorker s1 tid with _ | w
  · simp only [hfw]
    exact hs1.1
  · simp only [hfw]
    split
    · exact manageTailComp hs1.1 (hassign now s1 tid (Nat.le_trans hs1.2 hmu))
    · split
      · split
        · exact manageTailComp hs1.1
            (manageTailComp (removeWorkerTail s1 (some tid) true)
              ⟨rfl, rfl, rfl, rfl, rfl, rfl, Nat.le_refl _, List.prefix_refl _,
               ⟨[], (List.append_nil _).symm⟩⟩)
        · exact manageTailComp hs1.1 (removeWorkerTail s1 (some tid) true)
      · exact hs1.1

/-- `ManageTail` holds of every `manageIdleWorker` call. -/
def manageTail (now : Nat) (s : MainState τ) (tid : Nat) :
    ManageTail s (manageIdleWorker now s tid) :=
  (manageTailAux (muMain s)).1 now s tid (Nat.le_refl _)

/-- `ManageTail` holds of every `assignNextTask` call. -/
def assignTail (now : Nat) (s : MainState τ) (tid : Nat) :
    ManageTail s (assignNextTask now s tid) :=
  (manageTailAux (muMain s)).2 now s tid (Nat.le_refl _)

/-- `onTaskCompletion(worker, task, result)`: drop the in-flight record,
bump `received` and the processed counter, hand the result to the
user-supplied `workerCallback` (external, no modelled effect), and re-enter
the dispatch loop for this worker. -/
def onTaskCompletion (now : Nat) (s : MainState τ) (tid : Nat) (task : τ) : MainState τ :=
  let s1 := updateWorker s tid (fun w =>
    {w with currentTasks := removeFirstTask w.currentTasks task,
            received := w.received + 1})
  let s2 := {s1 with stats.processedTasks := s1.stats.processedTasks + 1}
  manageIdleWorker now s2 tid

/-- `onSuccessMessage(worker, task, details)`: count the success; a success
for a task in `failedTasks` is a retry success — reconcile the log and undo
one failure count — otherwise log a plain success. -/
def onSuccessMessage (s : MainState τ) (task : τ) (details : String) : MainState τ :=
  let s1 := {s with stats.successful := s.stats.successful + 1}
  if s1.failedTasks.contains task then
    {s1 with logCalls := s1.logCalls ++ [LogCall.retrySuccess task details],
             stats.failed := s1.stats.failed - 1}
  else
    {s1 with logCalls := s1.logCalls ++ [LogCall.success task details]}

/-- `onFailureMessage(worker, task, details)`: once the retry pass has
started, a failure of an already-failed task is dropped (no double log) and a
failure of a new task is also pushed straight back onto the pending queue;
in every non-dropped case the task joins `failedTasks`, a failure is logged
and the failure counter bumps. -/
def onFailureMessage (s : MainState τ) (task : τ) (details : String) : MainState τ :=
  if s.retryStarted && s.failedTasks.contains task then s
  else
    let s1 :=
      if s.retryStarted then
        {s with stats.totalTasks := s.stats.totalTasks + 1,
                iterable := s.iterable ++ [task]}
      else s
    {s1 with failedTasks := s1.failedTasks ++ [task],
             logCalls := s1.logCalls ++ [LogCall.failure task details],
             stats.failed := s1.stats.failed + 1}

/-- `onErrorMessage(worker, task, error)`: count and log the error (the
stack is also printed to the console). -/
def onErrorMessage (s : MainState τ) (task : τ) (stack : String) : MainState τ :=
  {s with stats.errors := s.stats.errors + 1,
          logCalls := s.logCalls ++ [LogCall.error task stack]}

/-- A message from a worker as `MainThread.handleMessage` distinguishes
them: the four protocol types, plus `unknown` (a `type` outside the
vocabulary) and `noType` (a falsy `type` field). -/
inductive WorkerMsg (τ : Type) where
  | complete (iterated : τ) (details : String)
  | successful (iterated : τ) (details : String)
  | failed (iterated : τ) (details : String)
  | error (iterated : τ) (details : String)
  | unknown (ty : String)
  | noType
deriving DecidableEq, Repr

/-- `MainThread.handleMessage(worker, message)`.  The two `throw`s for a
missing or unknown type happen inside the handler's `try/catch`: they are
caught and logged, no state was mutated, and the run continues — hence the
unchanged state. -/
def handleMessage (now : Nat) (s : MainState τ) (tid : Nat) (m : WorkerMsg τ) : MainState τ :=
  match m with
  | WorkerMsg.complete iterated _ => onTaskCompletion now s tid iterated
  | WorkerMsg.successful iterated details => onSuccessMessage s iterated details
  | WorkerMsg.failed iterated details => onFailureMessage s iterated details
  | WorkerMsg.error iterated details => onErrorMessage s iterated details
  | WorkerMsg.unknown _ => s
  | WorkerMsg.noType => s

/-- `addWorker()`: spawn a worker (thread ids are consecutive and nonzero),
subscribe its event handlers (the handlers are the `handle*` functions of
this development), push it into the pool, run the dispatch loop for it, and
return its id. -/
def addWorker (now : Nat) (s : MainState τ) : Nat × MainState τ :=
  let w : Worker τ :=
    {threadId := s.nextThreadId, sent := 0, received := 0, currentTasks := [], stopping := false}
  let s1 := {s with nextThreadId := s.nextThreadId + 1,
                    workers := s.workers ++ [w],
                    spawned := s.spawned ++ [w.threadId]}
  (w.threadId, manageIdleWorker now s1 w.threadId)

/-- The `worker.currentTasks.forEach` loop of `handleError`: synthesize an
error outcome and then a failure outcome for every in-flight task of the
crashed worker. -/
def crashOutcomes (msg : String) (s : MainState τ) (tasks : List (TaskRec τ)) : MainState τ :=
  tasks.foldl (fun acc t => onFailureMessage (onErrorMessage acc t.task msg) t.task msg) s

/-- `handleError(worker, error)`: prefix the error message, synthesize
outcomes for all in-flight tasks, bump `processedTasks` and the sliding
crash counter, schedule the counter's decrement 5000 ms later, and then
either `throw` (more than 5 recent crashes — the uncaught exception halts
the whole run: `fatal`), or replace the crashed worker (remove/terminate it
and spawn a fresh one).  A worker with a falsy `threadId` is not replaced. -/
def handleError (now : Nat) (s : MainState τ) (w : Worker τ) (errMessage : String) : MainState τ :=
  let msg := "Thread crashed - " ++ errMessage
  let s1 := crashOutcomes msg s w.currentTasks
  let s2 := {s1 with stats.processedTasks := s1.stats.processedTasks + 1,
                     recentErrors := s1.recentErrors + 1,
                     pendingDecrements := s1.pendingDecrements ++ [now + 5000]}
  if 5 < s2.recentErrors then {s2 with fatal := true}
  else if w.threadId ≠ 0 then
    (addWorker now (removeWorker s2 (some w.threadId) true).2).2
  else s2

/-- The crash-outcome loop leaves the worker pool untouched
(`onErrorMessage` and `onFailureMessage` never write `workers`). -/
def crashOutcomesWorkers (msg : String) :
    (tasks : List (TaskRec τ)) → (s : MainState τ) →
    (crashOutcomes msg s tasks).workers = s.workers
  | [], _ => rfl
  | t :: rest, s => by
    have hstep : (onFailureMessage (onErrorMessage s t.task msg) t.task msg).workers
        = s.workers := by
      simp only [onFailureMessage, onErrorMessage]
      split
      · rfl
      · split <;> rfl
    have := crashOutcomesWorkers msg rest
      (onFailureMessage (onErrorMessage s t.task msg) t.task msg)
    simp only [crashOutcomes, List.foldl_cons] at this ⊢
    rw [this, hstep]

/-- `addWorker` grows the pool by at most the one spawned worker. -/
def addWorkerLen (now : Nat) (x : MainState τ) :
    (addWorker now x).2.workers.length ≤ x.workers.length + 1 := by
  unfold addWorker
  dsimp only
  refine Nat.le_trans (manageTail now _ _).workersLen ?_
  simp

/-- Splicing out a present worker id always finds a worker. -/
def removeObjectFound : (ws : List (Worker τ)) → (tid : Nat) →
    tid ∈ ws.map Worker.threadId →
    ∃ w, (removeObjectFromWorkers ws tid).1 = some w
  | [], _, h => absurd h (by simp)
  | w :: rest, tid, h => by
    simp only [removeObjectFromWorkers]
    split
    · exact ⟨w, rfl⟩
    next hne =>
      have hmem : tid ∈ rest.map Worker.threadId := by
        simp only [List.map_cons, List.mem_cons] at h
        rcases h with h | h
        · exact absurd h.symm hne
        · exact h
      obtain ⟨w', hw'⟩ := removeObjectFound rest tid hmem
      exact ⟨w', by simpa using hw'⟩

/-- Removing a present worker by its (nonzero) id shrinks the pool by one. -/
def removeWorkerLenOfMem (x : MainState τ) (t : Nat) (im : Bool) (ht : t ≠ 0)
    (hmem : t ∈ x.workers.map Worker.threadId) :
    (removeWorker x (some t) im).2.workers.length + 1 = x.workers.length := by
  have hsel : selectWorker x (some t) = removeObjectFromWorkers x.workers t := by
    unfold selectWorker
    dsimp only
    rw [if_pos ht]
  have hlen := removeObjectLenOfMem x.workers t hmem
  obtain ⟨w', hw'⟩ := removeObjectFound x.workers t hmem
  unfold removeWorker
  rw [hsel]
  rcases hro : removeObjectFromWorkers x.workers t with ⟨o, ws⟩
  rw [hro] at hw' hlen
  dsimp only at hw' hlen
  subst hw'
  dsimp only
  split <;> exact hlen
  
/-- `handleError` cannot grow the pool when the crashed worker is still in
it: the crashed worker is spliced out before the single replacement is
spawned. -/
def handleErrorLen (now : Nat) (s : MainState τ) (w : Worker τ) (m : String)
    (hmem : w.threadId ∈ s.workers.map Worker.threadId) :
    (handleError now s w m).workers.length ≤ s.workers.length := by
  unfold handleError
  dsimp only
  split
  · simp [crashOutcomesWorkers]
  · split
    next ht =>
      refine Nat.le_trans (addWorkerLen now _) ?_
      rw [removeWorkerLenOfMem _ w.threadId true ht
        (by simpa [crashOutcomesWorkers] using hmem)]
      simp [crashOutcomesWorkers]
    next => simp [crashOutcomesWorkers]

/-- The per-task log calls `handleError` synthesizes for a crashed worker:
an error and a failure for each in-flight task, in task order. -/
def errFailCalls (msg : String) (tasks : List (TaskRec τ)) : List (LogCall τ) :=
  tasks.bind (fun t => [LogCall.error t.task msg, LogCall.failure t.task msg])

/-- The hung test of `recycleHungThreads`'s loop body: count the in-flight
tasks whose runtime exceeds the timeout and compare against half the
in-flight count (a float comparison in the source, exact in `ℚ` here). -/
def isHungCheck (now timeout : Nat) (w : Worker τ) : Bool :=
  decide ((w.currentTasks.length : ℚ) / 2 ≤
    ((w.currentTasks.filter (fun t => decide (timeout < now - t.start))).length : ℚ))

/-- The `for (const worker of main.workers)` loop of `recycleHungThreads`,
with JavaScript's live-array iteration semantics: the array iterator reads
`workers[idx]` from the **current** pool, which `handleError` mutates
(splicing out the hung worker and appending its replacement), so workers
shifted left by a removal can be skipped and a freshly appended replacement
can itself be visited within the same scan.  A task is counted as hung when
its runtime exceeds the timeout; the worker is recycled when the hung count
reaches half its in-flight count (a float comparison in the source, exact in
`ℚ` here).  A `throw` escaping `handleError` (the crash-storm circuit
breaker) aborts the scan — and the process. -/
def recycleLoop (now timeout : Nat) (s : MainState τ) (idx : Nat) : MainState τ :=
  if h : idx < s.workers.length then
    let w := s.workers.get ⟨idx, h⟩
    let s' := if isHungCheck now timeout w
      then handleError now s w "Worker thread was hung" else s
    if s'.fatal then s' else recycleLoop now timeout s' (idx + 1)
  else s
termination_by s.workers.length - idx
decreasing_by
  have hw : s.workers.get ⟨idx, h⟩ ∈ s.workers := s.workers.get_mem idx h
  split
  next hhung =>
    have := handleErrorLen now s (s.workers.get ⟨idx, h⟩) "Worker thread was hung"
      (List.mem_map_of_mem Worker.threadId hw)
    omega
  next => omega

/-- `recycleHungThreads(timeout)`, run by a `setInterval` every
`timeout * 2` ms. -/
def recycleHungThreads (now timeout : Nat) (s : MainState τ) : MainState τ :=
  recycleLoop now timeout s 0

/-- The worker-spawn loop of `startWorking`: `currentWorkers` is a local
counter initialised to the pool size and incremented once per `addWorker()`
call regardless of what the dispatch loop does to the pool, so the loop body
runs exactly `threads - workers.length` times (when positive). -/
def spawnLoop (now : Nat) : Nat → MainState τ → MainState τ
  | 0, s => s
  | k + 1, s => spawnLoop now k (addWorker now s).2

/-- `startWorking()` (the bare call; the optional `iterable`/`callback`
arguments run `setIterable`/`setWorkerCallback` first and are modelled
separately): `throw` unless a work list was ever set, otherwise re-record
the start time, reset the total-task count to the current queue length, mark
the run as processing, and top the pool up to the configured thread count. -/
def startWorking (now : Nat) (s : MainState τ) : Except String (MainState τ) :=
  if !s.iterableSet then
    Except.error "You must provide a list of iterable items to process before startWorking."
  else
    let s1 := {s with stats.startTime := now,
                      stats.totalTasks := s.iterable.length,
                      processing := true}
    Except.ok (spawnLoop now (s1.threads - s1.workers.length) s1)

/-- `stopWorking(immediate?)`: stop dispatching, then remove every worker by
the ids snapshotted before the removals start. -/
def stopWorking (s : MainState τ) (immediate : Bool) : MainState τ :=
  let s1 := {s with processing := false}
  (s1.workers.map Worker.threadId).foldl
    (fun acc t => (removeWorker acc (some t) immediate).2) s1

/-- Fire every `setTimeout(() => main.recentErrors--, 5000)` callback whose
deadline is due at or before time `t` (each crash schedules exactly one). -/
def fireDueTimers (s : MainState τ) (t : Nat) : MainState τ :=
  {s with recentErrors :=
            s.recentErrors - (s.pendingDecrements.filter (fun d => decide (d ≤ t))).length,
          pendingDecrements := s.pendingDecrements.filter (fun d => decide (¬ d ≤ t))}

/-- Scenario driver: a worker crash (`'error'` event) observed at time `t`,
delivered to the first worker of the pool.  Due decrement timers fire before
the event is handled; after a fatal circuit-breaker `throw` the process is
dead and nothing further is handled. -/
def crashEvent (s : MainState τ) (t : Nat) : MainState τ :=
  if s.fatal then s
  else
    let s1 := fireDueTimers s t
    match s1.workers with
    | [] => s1
    | w :: _ => handleError t s1 w "Simulated crash"

/-- Scenario driver: a sequence of worker crashes at the given times
(ascending). -/
def runCrashes (s : MainState τ) (times : List Nat) : MainState τ :=
  times.foldl crashEvent s

end MainThread

/-! ### Concrete states for the claim scenarios -/

/-- A dispatching orchestrator mid-run: 2 items still pending of 5 total, a
full pool of one worker, statistics recorded at start time 100. -/
def midRunState : MainState Nat :=
  { initMain 1 1 false with
      iterable := [15, 16]
      iterableSet := true
      processing := true
      workers := [⟨1, 4, 2, [], false⟩]
      stats := { startTime := 100, totalTasks := 5, processedTasks := 3,
                 successful := 3, failed := 0, errors := 0 }
      nextThreadId := 2 }

/-- The work list `[A, B, C]` (as `[1, 2, 3]`) handed to a fresh
orchestrator with one worker and per-worker concurrency 1. -/
def lifoStart : MainState Nat :=
  setIterableList (initMain 1 1 false) [1, 2, 3]

/-- A dispatching single-worker orchestrator with six pending items, used to
drive the crash scenarios: each replacement worker immediately pulls one
pending item. -/
def crashPoolState : MainState Nat :=
  { initMain 1 1 false with
      iterable := [91, 92, 93, 94, 95, 96]
      iterableSet := true
      processing := true
      workers := [⟨1, 0, 0, [], false⟩]
      nextThreadId := 2 }

/-- Two workers, each with one in-flight item dispatched at time 0, one
pending item, dispatching: the state for the hung-scan counterexample. -/
def twoHungState : MainState Nat :=
  { initMain 2 1 false with
      iterable := [33]
      iterableSet := true
      processing := true
      workers := [⟨1, 1, 0, [⟨0, 11⟩], false⟩, ⟨2, 1, 0, [⟨0, 22⟩], false⟩]
      nextThreadId := 3 }

/-- A hung worker followed by an idle worker (no in-flight records), one
pending item, dispatching: the state for the idle-worker-skipped
counterexample. -/
def hungIdleState : MainState Nat :=
  { initMain 2 1 false with
      iterable := [33]
      iterableSet := true
      processing := true
      workers := [⟨1, 1, 0, [⟨0, 11⟩], false⟩, ⟨2, 5, 5, [], false⟩]
      nextThreadId := 3 }

/-- One worker with four in-flight items dispatched at time 0, one pending
item, dispatching: the state for the hung-recovery witness. -/
def fourTaskState (starts : List Nat) : MainState Nat :=
  { initMain 1 1 false with
      iterable := [55]
      iterableSet := true
      processing := true
      workers := [⟨1, 4, 0, starts.map (fun t => ⟨t, 40 + t⟩), false⟩]
      nextThreadId := 2 }

/-- One idle worker with no in-flight items, one pending item, dispatching:
the state for the empty-worker hung-scan claim. -/
def emptyWorkerState : MainState Nat :=
  { initMain 1 1 false with
      iterable := [77]
      iterableSet := true
      processing := true
      retryStarted := true
      workers := [⟨1, 2, 2, [], false⟩]
      nextThreadId := 2 }

/-! ## Theorems

First the supporting lemmas about the log writer, then the claim theorems.
-/

section LogManagerLemmas

theorem applyTask_logQueue (lm : LogManagerState) (t : LogTask) :
    (applyTask lm t).logQueue = lm.logQueue := by
  cases t <;> rfl

theorem applyTask_processing (lm : LogManagerState) (t : LogTask) :
    (applyTask lm t).processing = lm.processing := by
  cases t <;> rfl

theorem applyTask_hasLogPath (lm : LogManagerState) (t : LogTask) :
    (applyTask lm t).hasLogPath = lm.hasLogPath := by
  cases t <;> rfl

theorem applyTask_processedTrace (lm : LogManagerState) (t : LogTask) :
    (applyTask lm t).processedTrace = lm.processedTrace ++ [t] := by
  cases t <;> rfl

/-- Draining a one-element queue handles exactly that element. -/
theorem processQueueLoop_singleton (lm : LogManagerState) (t : LogTask)
    (h : lm.logQueue = [t]) :
    processQueueLoop lm 0 = applyTask {lm with logQueue := []} t := by
  obtain ⟨hlp, q, pr, sf, ff, ef, tr⟩ := lm
  dsimp only at h
  subst h
  rw [processQueueLoop]
  simp only [List.length_cons, List.length_nil, Nat.zero_lt_succ, dif_pos,
    List.get_cons_zero, List.drop_succ_cons, List.drop_nil]
  rw [processQueueLoop]
  simp [applyTask_logQueue]

/-- `addToQueue` on an idle writer with an empty queue drains the new task
synchronously before returning. -/
theorem addToQueue_idle (lm : LogManagerState) (t : LogTask)
    (hq : lm.logQueue = []) (hp : lm.processing = false) (hl : lm.hasLogPath = true) :
    addToQueue lm t =
      {applyTask {lm with logQueue := [], processing := true} t with processing := false} := by
  unfold addToQueue processQueue
  simp only [hl, hp, Bool.not_true, Bool.not_false, Bool.false_eq_true, if_false, if_true, hq,
    List.nil_append]
  rw [processQueueLoop_singleton _ t rfl]

/-- The drain invariant: from an idle writer with an empty queue, any
sequence of enqueues leaves an idle writer with an empty queue, and the
drain loop has handled exactly the enqueued tasks in arrival order. -/
theorem foldl_addToQueue_idle (events : List LogTask) :
    ∀ lm : LogManagerState, lm.logQueue = [] → lm.processing = false →
      lm.hasLogPath = true →
      (events.foldl addToQueue lm).processedTrace = lm.processedTrace ++ events ∧
      (events.foldl addToQueue lm).logQueue = [] ∧
      (events.foldl addToQueue lm).processing = false ∧
      (events.foldl addToQueue lm).hasLogPath = true := by
  induction events with
  | nil =>
    intro lm hq hp hl
    simpa using ⟨hq, hp, hl⟩
  | cons t rest ih =>
    intro lm hq hp hl
    rw [List.foldl_cons, addToQueue_idle lm t hq hp hl]
    obtain ⟨h1, h2, h3, h4⟩ := ih
      {applyTask {lm with logQueue := [], processing := true} t with processing := false}
      (by simp [applyTask_logQueue]) rfl (by simp [applyTask_hasLogPath, hl])
    refine ⟨?_, h2, h3, h4⟩
    rw [h1]
    simp [applyTask_processedTrace]

/-- Removing the first match from a stream with no match is a no-op. -/
theorem rmFirstFailure_of_no_match : (l : List LogEntry) → (x : String) →
    l.filter (fun e => e.iterated == x) = [] → rmFirstFailure l x = l
  | [], _, _ => rfl
  | e :: rest, x, h => by
    rw [rmFirstFailure]
    rcases he : e.iterated == x with _ | _
    · rw [if_neg (by simp [he])]
      rw [List.filter_cons_of_neg (by simp [he])] at h
      rw [rmFirstFailure_of_no_match rest x h]
    · rw [List.filter_cons_of_pos (by simp [he])] at h
      simp at h
  
/-- Removing the first match from a stream with exactly one match removes
every match. -/
theorem rmFirstFailure_filter_of_unique : (l : List LogEntry) → (x : String) →
    (l.filter (fun e => e.iterated == x)).length = 1 →
    (rmFirstFailure l x).filter (fun e => e.iterated == x) = []
  | [], _, _ => rfl
  | e :: rest, x, h => by
    rw [rmFirstFailure]
    rcases he : e.iterated == x with _ | _
    · rw [if_neg (by simp [he])]
      rw [List.filter_cons_of_neg (by simp [he])] at h
      rw [List.filter_cons_of_neg (by simp [he])]
      exact rmFirstFailure_filter_of_unique rest x h
    · rw [if_pos (by simp [he])]
      rw [List.filter_cons_of_pos (by simp [he])] at h
      simp only [List.length_cons] at h
      have h0 : (rest.filter (fun e => e.iterated == x)).length = 0 := by omega
      exact List.length_eq_zero.mp h0

end LogManagerLemmas

section ClaimTheorems

variable {τ : Type} [DecidableEq τ]

/-- Claim C2: for every sequence of log events enqueued to the log writer
(success, failure, error, remove-failure), every enqueued event is processed
exactly once by the drain loop and in arrival (FIFO) order, with at most one
drain loop active at a time.  Formally: folding `addToQueue` over any event
list from a fresh `LogManager` ends with the drain loop having handled
exactly that list, in order, with an empty queue and the `processing` flag
(which guards against a second concurrent drain loop) back to `false`.
Enqueues drain synchronously, so the queue is empty and the writer idle at
every enqueue, which is what makes the per-event handling exact and ordered. -/
theorem claim_C2 (events : List LogTask) :
    (events.foldl addToQueue initLogManager).processedTrace = events ∧
    (events.foldl addToQueue initLogManager).logQueue = [] ∧
    (events.foldl addToQueue initLogManager).processing = false := by
  obtain ⟨h1, h2, h3, _⟩ := foldl_addToQueue_idle events initLogManager rfl rfl rfl
  exact ⟨by simpa [initLogManager] using h1, h2, h3⟩

/-- Claim C1, corrected claim: `logRetrySuccess` is the ordered pair
"remove the **first** matching failure entry, then append a success entry";
a missing match makes the removal a no-op while the append still happens;
and for an item with exactly one failure entry (and no prior success entry)
the failure stream ends with no entry for it and the success stream with
exactly one. -/
theorem claim_C1_amended (lm : LogManagerState) (x d : String)
    (hq : lm.logQueue = []) (hp : lm.processing = false) (hl : lm.hasLogPath = true) :
    (logRetrySuccess lm x d).failureFile = rmFirstFailure lm.failureFile x ∧
    (logRetrySuccess lm x d).successFile = lm.successFile ++ [⟨x, d⟩] ∧
    (logRetrySuccess lm x d).errorsFile = lm.errorsFile ∧
    (lm.failureFile.filter (fun e => e.iterated == x) = [] →
      (logRetrySuccess lm x d).failureFile = lm.failureFile) ∧
    ((lm.failureFile.filter (fun e => e.iterated == x)).length = 1 →
      (logRetrySuccess lm x d).failureFile.filter (fun e => e.iterated == x) = []) ∧
    (lm.successFile.filter (fun e => e.iterated == x) = [] →
      ((logRetrySuccess lm x d).successFile.filter (fun e => e.iterated == x)).length = 1) := by
  have hstep : ∀ P : LogManagerState → Prop,
      P {applyTask {applyTask {lm with logQueue := [], processing := true}
            (LogTask.rmFailure x) with logQueue := [], processing := true}
          (LogTask.success x d) with processing := false} →
      P (logRetrySuccess lm x d) := by
    intro P hP
    rw [logRetrySuccess, addToQueue_idle lm (LogTask.rmFailure x) hq hp hl,
      addToQueue_idle _ (LogTask.success x d) (by simp [applyTask_logQueue]) rfl
        (by simp [applyTask_hasLogPath, hl])]
    exact hP
  refine ⟨hstep (fun s => s.failureFile = rmFirstFailure lm.failureFile x) rfl,
          hstep (fun s => s.successFile = lm.successFile ++ [⟨x, d⟩]) rfl,
          hstep (fun s => s.errorsFile = lm.errorsFile) rfl, ?_, ?_, ?_⟩
  · intro hnone
    refine hstep (fun s => s.failureFile = lm.failureFile) ?_
    show rmFirstFailure lm.failureFile x = lm.failureFile
    exact rmFirstFailure_of_no_match lm.failureFile x hnone
  · intro hone
    refine hstep (fun s => s.failureFile.filter (fun e => e.iterated == x) = []) ?_
    show (rmFirstFailure lm.failureFile x).filter (fun e => e.iterated == x) = []
    exact rmFirstFailure_filter_of_unique lm.failureFile x hone
  · intro hnone
    refine hstep (fun s => (s.successFile.filter (fun e => e.iterated == x)).length = 1) ?_
    show ((lm.successFile ++ [(⟨x, d⟩ : LogEntry)]).filter (fun e => e.iterated == x)).length = 1
    simp [List.filter_append, hnone]

/-- Claim C1, witness: an item ("X") with exactly one failure entry whose
retry success is logged — afterwards the failure stream has no entry for it
and the success stream exactly one. -/
theorem claim_C1_witness :
    (({initLogManager with failureFile := [⟨"X", "f1"⟩, ⟨"Y", "f2"⟩]} :
        LogManagerState).logQueue = [] ∧
     ({initLogManager with failureFile := [⟨"X", "f1"⟩, ⟨"Y", "f2"⟩]} :
        LogManagerState).failureFile.filter (fun e => e.iterated == "X") =
          [⟨"X", "f1"⟩]) ∧
    (logRetrySuccess {initLogManager with failureFile := [⟨"X", "f1"⟩, ⟨"Y", "f2"⟩]}
        "X" "ok").failureFile.filter (fun e => e.iterated == "X") = [] ∧
    ((logRetrySuccess {initLogManager with failureFile := [⟨"X", "f1"⟩, ⟨"Y", "f2"⟩]}
        "X" "ok").successFile.filter (fun e => e.iterated == "X")).length = 1 :=
  ⟨⟨rfl, by decide⟩,
   (claim_C1_amended {initLogManager with failureFile := [⟨"X", "f1"⟩, ⟨"Y", "f2"⟩]}
     "X" "ok" rfl rfl rfl).2.2.2.2.1 (by decide),
   (claim_C1_amended {initLogManager with failureFile := [⟨"X", "f1"⟩, ⟨"Y", "f2"⟩]}
     "X" "ok" rfl rfl rfl).2.2.2.2.2 (by decide)⟩

/-- Claim C1, counterexample to the claim as stated: with two failure
entries for "X", the reconciliation removes the **first** one (keeping
`⟨"X","b"⟩`), while removing the last — what the claim says — would keep
`⟨"X","a"⟩`; the two results differ. -/
theorem claim_C1_counterexample :
    (logRetrySuccess {initLogManager with failureFile := [⟨"X", "a"⟩, ⟨"X", "b"⟩]}
        "X" "d").failureFile = [⟨"X", "b"⟩] ∧
    rmLastFailureSpec [⟨"X", "a"⟩, ⟨"X", "b"⟩] "X" = [⟨"X", "a"⟩] ∧
    ([(⟨"X", "b"⟩ : LogEntry)] ≠ [(⟨"X", "a"⟩ : LogEntry)]) := by
  refine ⟨?_, by decide, by decide⟩
  rw [logRetrySuccess,
    addToQueue_idle {initLogManager with failureFile := [⟨"X", "a"⟩, ⟨"X", "b"⟩]}
      (LogTask.rmFailure "X") rfl rfl rfl,
    addToQueue_idle _ (LogTask.success "X" "d") (by simp [applyTask_logQueue]) rfl
      (by simp [applyTask_hasLogPath, initLogManager])]
  decide

/-- Claim C9, corrected claim: the recomputation derives each per-hour rate
as `count * 3,600,000 / elapsed_ms`, but the only guard is the early return
when `totalTasks == 0` — there is no guard for `elapsed == 0`.  When
`totalTasks > 0` and the elapsed time is `0` the division by zero is
performed, yielding `Infinity` for a positive counter and `NaN` for a zero
counter. -/
theorem claim_C9_amended (st : StatsTracker) (now : Nat) :
    (st.totalTasks = 0 → updateCalculatedFields st now = st) ∧
    (st.totalTasks ≠ 0 →
      (updateCalculatedFields st now).hProcessedTasks =
        hourly st.processedTasks (now - st.startTime) ∧
      (updateCalculatedFields st now).hSuccessful =
        hourly st.successful (now - st.startTime) ∧
      (updateCalculatedFields st now).hFailed =
        hourlyInt st.failed (now - st.startTime) ∧
      (updateCalculatedFields st now).hErrors =
        hourly st.errors (now - st.startTime)) ∧
    (∀ c r : Nat, 0 < r →
      hourly c r = toFixed2 (JsNum.fin ((c : ℚ) * 3600000 / (r : ℚ)))) ∧
    (∀ c : Nat, 0 < c → hourly c 0 = JsNum.inf) ∧
    hourly 0 0 = JsNum.nan := by
  refine ⟨?_, ?_, ?_, ?_, ?_⟩
  · intro h0
    unfold updateCalculatedFields
    rw [if_pos h0]
  · intro hne
    unfold updateCalculatedFields
    rw [if_neg hne]
    exact ⟨rfl, rfl, rfl, rfl⟩
  · intro c r hr
    unfold hourly jsDivQ
    rw [if_neg (by positivity)]
    norm_num
  · intro c hc
    unfold hourly jsDivQ
    rw [if_pos (by norm_num)]
    rw [if_neg (by positivity)]
    rw [if_pos (by positivity)]
    rfl
  · unfold hourly jsDivQ
    norm_num
    rfl

/-- Claim C9, witness: a tracker with 5 total and 3 processed tasks, updated
1000 ms after its start, gets the guarded formula; the same tracker updated
0 ms after its start divides by zero and records an `Infinity` rate. -/
theorem claim_C9_witness :
    ({initStats 1000 with totalTasks := 5, processedTasks := 3} :
      StatsTracker).totalTasks ≠ 0 ∧
    (updateCalculatedFields {initStats 1000 with totalTasks := 5, processedTasks := 3}
      2000).hProcessedTasks = hourly 3 1000 ∧
    (0 : Nat) < 3 ∧ hourly 3 0 = JsNum.inf :=
  ⟨by decide,
   (claim_C9_amended {initStats 1000 with totalTasks := 5, processedTasks := 3}
     2000).2.1 (by decide) |>.1,
   by decide,
   (claim_C9_amended {initStats 1000 with totalTasks := 5, processedTasks := 3}
     2000).2.2.2.1 3 (by decide)⟩

/-- Claim C9, counterexample to the claim as stated: a reachable statistics
state (`totalTasks = 5 > 0`, `processedTasks = 3`, updated in the same
millisecond as its recorded start, as `startWorking` immediately followed by
a stats snapshot produces) performs the division by zero: the recomputation
runs (`totalTasks ≠ 0` passes the only guard), elapsed is 0, and the
processed-per-hour rate comes out `Infinity`. -/
theorem claim_C9_counterexample :
    ({initStats 1000 with totalTasks := 5, processedTasks := 3} :
      StatsTracker).totalTasks ≠ 0 ∧
    (updateCalculatedFields {initStats 1000 with totalTasks := 5, processedTasks := 3}
      1000).runTime = 0 ∧
    (updateCalculatedFields {initStats 1000 with totalTasks := 5, processedTasks := 3}
      1000).hProcessedTasks = JsNum.inf := by
  refine ⟨by decide, ?_, ?_⟩
  · unfold updateCalculatedFields
    norm_num [initStats]
  · unfold updateCalculatedFields
    norm_num [initStats]
    unfold hourly jsDivQ
    norm_num
    rfl

/-- Claim C6, corrected claim: the orchestrator side logs and discards a
message whose type is outside the protocol vocabulary (or missing), leaving
its state unchanged and the run alive; the **worker** side, however, throws
an uncaught `Unknown message type from main thread.` error from its message
listener, which crashes the worker thread instead of discarding the
message. -/
theorem claim_C6_amended {τ : Type} [DecidableEq τ] :
    (∀ (s : MainState τ) (now tid : Nat) (ty : String),
      handleMessage now s tid (WorkerMsg.unknown ty) = s ∧
      handleMessage now s tid WorkerMsg.noType = s) ∧
    (∀ (w : WorkerThreadState τ) (ty : String),
      workerHandleMessage w (MainMsg.other ty) =
        Except.error "Unknown message type from main thread.") :=
  ⟨fun _ _ _ _ => ⟨rfl, rfl⟩, fun _ _ => rfl⟩

/-- Claim C6, counterexample to the claim as stated: a not-yet-ready worker
receiving a message of unknown type `"bogus"` does not discard it with its
state unchanged — the handler escapes with an uncaught error (crashing the
worker thread). -/
theorem claim_C6_counterexample :
    workerHandleMessage (⟨false, [], []⟩ : WorkerThreadState Nat) (MainMsg.other "bogus") =
      Except.error "Unknown message type from main thread." ∧
    workerHandleMessage (⟨false, [], []⟩ : WorkerThreadState Nat) (MainMsg.other "bogus") ≠
      Except.ok ⟨false, [], []⟩ := by
  exact ⟨rfl, by simp [workerHandleMessage]⟩

/-- Claim C8, corrected claim: `setIterable` fails (`InvalidInput`) exactly
when the argument is `undefined`/`null` ("You must provide and iterable
object.") or has no `Symbol.iterator` function ("This object is not
iterable."); a thrown validation error leaves `main.iterable` — the pending
queue — untouched.  Every *iterable* value, **including an empty sequence**,
passes validation and replaces the pending queue. -/
theorem claim_C8_amended {τ : Type} [DecidableEq τ] (v : JsValue τ) :
    (v = JsValue.undef ∨ v = JsValue.null →
      setIterable v = Except.error "You must provide and iterable object.") ∧
    (v ≠ JsValue.undef → v ≠ JsValue.null → hasSymbolIterator v = false →
      setIterable v = Except.error "This object is not iterable.") ∧
    (hasSymbolIterator v = true → setIterable v = Except.ok v) := by
  refine ⟨?_, ?_, ?_⟩
  · intro h
    unfold setIterable
    rw [if_pos h]
  · intro h1 h2 h3
    unfold setIterable
    rw [if_neg (by simp [h1, h2]), if_pos (by simp [h3])]
  · intro h3
    have h1 : v ≠ JsValue.undef := by
      intro he
      rw [he] at h3
      simp [hasSymbolIterator] at h3
    have h2 : v ≠ JsValue.null := by
      intro he
      rw [he] at h3
      simp [hasSymbolIterator] at h3
    unfold setIterable
    rw [if_neg (by simp [h1, h2]), if_neg (by simp [h3])]

/-- Claim C8, witness: a singleton array is accepted and stored; a number is
rejected as not iterable; `undefined` is rejected as missing. -/
theorem claim_C8_witness :
    setIterable (JsValue.arr [7]) = Except.ok (JsValue.arr ([7] : List Nat)) ∧
    setIterable (JsValue.num 42 : JsValue Nat) =
      Except.error "This object is not iterable." ∧
    setIterable (JsValue.undef : JsValue Nat) =
      Except.error "You must provide and iterable object." :=
  ⟨(claim_C8_amended (JsValue.arr [7])).2.2 (by decide),
   (claim_C8_amended (JsValue.num 42 : JsValue Nat)).2.1 (by decide) (by decide) (by decide),
   (claim_C8_amended (JsValue.undef : JsValue Nat)).1 (Or.inl rfl)⟩

/-- Claim C8, counterexample to the claim as stated: the empty array — an
empty ordered sequence, which the claim says must fail with `InvalidInput` —
passes validation and becomes the (empty) pending queue. -/
theorem claim_C8_counterexample :
    setIterable (JsValue.arr ([] : List Nat)) = Except.ok (JsValue.arr []) := by
  rfl

/-- Claim C7, corrected claim: calling `startWorking()` while the run is
already dispatching (with the pool at its configured size, as the first call
left it) leaves the pending queue and the worker pool unchanged and keeps
dispatching — but it is **not** a no-op on the run statistics: it re-records
the start time as the current time and resets the total-task count to the
current queue length. -/
theorem claim_C7_amended (s : MainState τ) (now : Nat)
    (h1 : s.iterableSet = true) (h2 : s.processing = true)
    (h3 : s.threads ≤ s.workers.length) :
    startWorking now s =
      Except.ok {s with stats.startTime := now,
                        stats.totalTasks := s.iterable.length,
                        processing := true} := by
  unfold startWorking
  rw [h1]
  simp only [Bool.not_true, Bool.false_eq_true, if_false]
  have hz : s.threads - s.workers.length = 0 := Nat.sub_eq_zero_of_le h3
  rw [show ({s with stats.startTime := now,
                    stats.totalTasks := s.iterable.length,
                    processing := true} : MainState τ).threads -
        ({s with stats.startTime := now,
                 stats.totalTasks := s.iterable.length,
                 processing := true} : MainState τ).workers.length = 0 from hz]
  rfl

/-- Claim C7, witness: the mid-run state — the second `startWorking()` keeps
queue and pool, rewrites the statistics. -/
theorem claim_C7_witness :
    midRunState.iterableSet = true ∧ midRunState.processing = true ∧
    midRunState.threads ≤ midRunState.workers.length ∧
    startWorking 777 midRunState =
      Except.ok {midRunState with stats.startTime := 777,
                                  stats.totalTasks := 2,
                                  processing := true} := by
  refine ⟨rfl, rfl, by decide, ?_⟩
  rw [claim_C7_amended midRunState 777 rfl rfl (by decide)]
  rfl

/-- Claim C7, counterexample to the claim as stated: on a dispatching state
whose statistics record 5 total tasks and start time 100, a second
`startWorking()` call succeeds but rewrites the statistics — total-task
count becomes the current queue length 2 and the start time becomes the
current clock 777, so the run statistics are not unchanged. -/
theorem claim_C7_counterexample :
    midRunState.stats.totalTasks = 5 ∧ midRunState.stats.startTime = 100 ∧
    (startWorking 777 midRunState).toOption.map
      (fun s => (s.stats.totalTasks, s.stats.startTime)) = some (2, 777) := by
  refine ⟨rfl, rfl, ?_⟩
  unfold startWorking
  rfl

theorem crashOutcomes_cons (msg : String) (s : MainState τ) (t : TaskRec τ)
    (rest : List (TaskRec τ)) :
    crashOutcomes msg s (t :: rest) =
      crashOutcomes msg (onFailureMessage (onErrorMessage s t.task msg) t.task msg) rest :=
  rfl

/-- The crash-outcome loop only ever changes the pending queue, the failed
set, the log-call trace, and the total/failed/error counters; every other
field of the state (workers, crash counter, timers, traces, flags) passes
through unchanged. -/
theorem crashOutcomes_shape (msg : String) (tasks : List (TaskRec τ)) :
    ∀ s : MainState τ, ∃ I F L T fl er, crashOutcomes msg s tasks =
      {s with iterable := I, failedTasks := F, logCalls := L,
              stats := {s.stats with totalTasks := T, failed := fl, errors := er}} := by
  induction tasks with
  | nil =>
    intro s
    exact ⟨s.iterable, s.failedTasks, s.logCalls, s.stats.totalTasks,
      s.stats.failed, s.stats.errors, rfl⟩
  | cons t rest ih =>
    intro s
    have hstep : ∃ I0 F0 L0 T0 fl0 er0,
        onFailureMessage (onErrorMessage s t.task msg) t.task msg =
          ({s with iterable := I0, failedTasks := F0, logCalls := L0,
                   stats := {s.stats with totalTasks := T0, failed := fl0, errors := er0}} :
            MainState τ) := by
      unfold onFailureMessage onErrorMessage
      split
      · exact ⟨_, _, _, _, _, _, rfl⟩
      · split
        · exact ⟨_, _, _, _, _, _, rfl⟩
        · exact ⟨_, _, _, _, _, _, rfl⟩
    obtain ⟨I0, F0, L0, T0, fl0, er0, hstepeq⟩ := hstep
    obtain ⟨I, F, L, T, fl, er, hrec⟩ :=
      ih (onFailureMessage (onErrorMessage s t.task msg) t.task msg)
    rw [hstepeq] at hrec
    refine ⟨I, F, L, T, fl, er, ?_⟩
    rw [crashOutcomes_cons, hstepeq]
    exact hrec.trans rfl

/-- Before the retry pass has started, the crash-outcome loop's effect in
full: each in-flight task contributes one error and one failure. -/
theorem crashOutcomes_effects (msg : String) (tasks : List (TaskRec τ)) :
    ∀ s : MainState τ, s.retryStarted = false →
    crashOutcomes msg s tasks =
      {s with failedTasks := s.failedTasks ++ tasks.map TaskRec.task,
              logCalls := s.logCalls ++ errFailCalls msg tasks,
              stats := {s.stats with failed := s.stats.failed + tasks.length,
                                     errors := s.stats.errors + tasks.length}} := by
  induction tasks with
  | nil =>
    intro s h
    show s = _
    simp [errFailCalls]
  | cons t rest ih =>
    intro s h
    have hstepeq : onFailureMessage (onErrorMessage s t.task msg) t.task msg =
        ({s with failedTasks := s.failedTasks ++ [t.task],
                 logCalls := (s.logCalls ++ [LogCall.error t.task msg]) ++
                   [LogCall.failure t.task msg],
                 stats := {s.stats with failed := s.stats.failed + 1,
                                        errors := s.stats.errors + 1}} : MainState τ) := by
      unfold onFailureMessage onErrorMessage
      rw [if_neg (by simp [h])]
      rw [if_neg (by simp [h])]
    rw [crashOutcomes_cons, hstepeq, ih _ (by exact h)]
    simp only [errFailCalls, List.cons_bind, List.map_cons, List.length_cons,
      List.append_assoc, MainState.mk.injEq, CoreStats.mk.injEq]
    norm_num
    refine ⟨?_, ?_⟩ <;> omega

/-- The crash-counter mechanics of `handleError`, for any state and crashed
worker: the counter always increments, a decrement deadline `now + 5000` is
always scheduled, exceeding 5 raises the fatal error, and otherwise (for a
real worker id) exactly one replacement is spawned. -/
theorem handleError_crashCounter (s : MainState τ) (w : Worker τ) (now : Nat)
    (msg : String) :
    (handleError now s w msg).recentErrors = s.recentErrors + 1 ∧
    (handleError now s w msg).pendingDecrements = s.pendingDecrements ++ [now + 5000] ∧
    (5 < s.recentErrors + 1 → (handleError now s w msg).fatal = true) ∧
    (s.recentErrors + 1 ≤ 5 → (handleError now s w msg).fatal = s.fatal ∧
      (w.threadId ≠ 0 →
        (handleError now s w msg).spawned = s.spawned ++ [s.nextThreadId])) := by
  obtain ⟨I, F, L, T, fl, er, hsh⟩ :=
    crashOutcomes_shape ("Thread crashed - " ++ msg) w.currentTasks s
  unfold handleError
  simp only [hsh]
  by_cases hlt : 5 < s.recentErrors + 1
  · rw [if_pos hlt]
    exact ⟨rfl, rfl, fun _ => rfl, fun hle => absurd hlt (by omega)⟩
  · rw [if_neg hlt]
    by_cases hid : w.threadId ≠ 0
    · rw [if_pos hid]
      set s2 : MainState τ :=
        {s with iterable := I, failedTasks := F, logCalls := L,
                stats := {s.stats with totalTasks := T, failed := fl, errors := er,
                                       processedTasks := s.stats.processedTasks + 1},
                recentErrors := s.recentErrors + 1,
                pendingDecrements := s.pendingDecrements ++ [now + 5000]} with hs2
      have hrt := removeWorkerTail s2 (some w.threadId) true
      set s3 := (removeWorker s2 (some w.threadId) true).2 with hs3
      have htl := manageTail (τ := τ) now
        {s3 with nextThreadId := s3.nextThreadId + 1,
                 workers := s3.workers ++
                   [⟨s3.nextThreadId, 0, 0, [], false⟩],
                 spawned := s3.spawned ++ [s3.nextThreadId]} s3.nextThreadId
      refine ⟨?_, ?_, fun h5 => absurd h5 hlt, fun _ => ⟨?_, fun _ => ?_⟩⟩
      · exact htl.recentErrors.trans (hrt.recentErrors.trans rfl)
      · exact htl.pendingDecrements.trans (hrt.pendingDecrements.trans rfl)
      · exact htl.fatal.trans (hrt.fatal.trans rfl)
      · exact htl.spawned.trans (by rw [hrt.spawned, hrt.nextThreadId])
    · rw [if_neg hid]
      exact ⟨rfl, rfl, fun h5 => absurd h5 hlt,
        fun _ => ⟨rfl, fun hid2 => absurd hid2 hid⟩⟩

/-- Removing the only worker of the pool by its (nonzero) id. -/
theorem removeWorker_single (s : MainState τ) (w : Worker τ) (tidv : Nat)
    (hw : s.workers = [w]) (htid : w.threadId = tidv) (hid : tidv ≠ 0) :
    removeWorker s (some tidv) true =
      (true, {s with workers := [], terminated := s.terminated ++ [tidv]}) := by
  unfold removeWorker selectWorker
  dsimp only
  rw [if_pos hid, hw]
  unfold removeObjectFromWorkers
  rw [if_pos htid]
  dsimp only
  rw [if_pos rfl, htid]

/-- The dispatch loop on a drained single-worker pool with an empty queue
and retry disabled: the worker has received everything it was sent, so it is
removed and terminated, and — the pool now being empty — the run completes. -/
theorem manage_drained (now : Nat) (s : MainState τ) (tid a : Nat)
    (ts : List (TaskRec τ))
    (hw : s.workers = [⟨tid, a, a, ts, false⟩]) (hid : tid ≠ 0)
    (hit : s.iterable = []) (hrf : s.retryFailed = false) :
    manageIdleWorker now s tid =
      {s with workers := [], terminated := s.terminated ++ [tid],
              completed := true} := by
  have hrc : retryCondition s = false := by
    unfold retryCondition
    rw [hrf]
    simp
  rw [manageIdleWorker, hrc]
  simp only [Bool.false_eq_true, if_false]
  unfold findWorker
  rw [hw]
  simp only [List.find?, decide_True, eq_self_iff_true]
  have htc : taskCondition s ⟨tid, a, a, ts, false⟩ = false := by
    unfold taskCondition
    rw [hit]
    simp
  rw [htc]
  simp only [Bool.false_eq_true, if_false]
  rw [if_pos (Nat.le_refl a)]
  rw [removeWorker_single s ⟨tid, a, a, ts, false⟩ tid hw rfl hid]
  dsimp only
  rw [if_pos (by simp)]
  rfl

/-- The dispatch loop on a single-worker pool with a pending item and
per-worker concurrency 1: the worker pulls exactly the most recently added
pending item and stops (it is at capacity). -/
theorem manage_assign_one (now : Nat) (s : MainState τ) (tid : Nat) (l : List τ)
    (x : τ) (a b : Nat) (ts : List (TaskRec τ))
    (hw : s.workers = [⟨tid, a, b, ts, false⟩]) (hb : b ≤ a)
    (hrs : s.retryStarted = false) (hpr : s.processing = true)
    (hit : s.iterable = l ++ [x]) (hpp : s.parallelProcesses = 1) :
    manageIdleWorker now s tid =
      {s with workers := [⟨tid, a + 1, b, ts ++ [⟨now, x⟩], false⟩],
              iterable := l,
              dispatched := s.dispatched ++ [x]} := by
  have hrc : retryCondition s = false := by
    unfold retryCondition
    rw [hit, hrs]
    simp
  rw [manageIdleWorker, hrc]
  simp only [Bool.false_eq_true, if_false]
  unfold findWorker
  rw [hw]
  simp only [List.find?, decide_True]
  have htc : taskCondition s ⟨tid, a, b, ts, false⟩ = true := by
    unfold taskCondition
    rw [hpr, hit]
    simp
  rw [htc]
  simp only [if_true]
  rw [assignNextTask]
  split
  next heq =>
    rw [hit, List.getLast?_concat] at heq
    exact absurd heq (by simp)
  next nextIterable heq =>
    rw [hit, List.getLast?_concat] at heq
    obtain rfl : nextIterable = x := by
      injection heq with h
      exact h.symm
    simp only [hit, updateWorker, hw, List.map_cons, List.map_nil, if_pos rfl]
    unfold findWorker
    simp only [List.map_cons, List.map_nil, List.find?, if_true, eq_self_iff_true,
      decide_True, List.dropLast_concat]
    rw [hpp]
    rw [if_neg (by omega)]

/-- `handleError` on a dispatching single-worker pool with a pending item,
below the crash threshold and before the retry pass: the crashed worker's
in-flight items each get an error and a failure outcome, the worker is
terminated, and the freshly spawned replacement immediately pulls the most
recently added pending item. -/
theorem handleError_step (s : MainState τ) (w : Worker τ) (now : Nat) (msg : String)
    (l : List τ) (x : τ)
    (hw : s.workers = [w]) (hid : w.threadId ≠ 0) (hre : s.recentErrors + 1 ≤ 5)
    (hrs : s.retryStarted = false) (hpr : s.processing = true)
    (hit : s.iterable = l ++ [x]) (hpp : s.parallelProcesses = 1) :
    handleError now s w msg =
      {s with workers := [⟨s.nextThreadId, 1, 0, [⟨now, x⟩], false⟩],
              iterable := l,
              failedTasks := s.failedTasks ++ w.currentTasks.map TaskRec.task,
              stats := {s.stats with
                          processedTasks := s.stats.processedTasks + 1,
                          failed := s.stats.failed + w.currentTasks.length,
                          errors := s.stats.errors + w.currentTasks.length},
              recentErrors := s.recentErrors + 1,
              pendingDecrements := s.pendingDecrements ++ [now + 5000],
              nextThreadId := s.nextThreadId + 1,
              dispatched := s.dispatched ++ [x],
              spawned := s.spawned ++ [s.nextThreadId],
              terminated := s.terminated ++ [w.threadId],
              logCalls := s.logCalls ++
                errFailCalls ("Thread crashed - " ++ msg) w.currentTasks} := by
  have heff := crashOutcomes_effects ("Thread crashed - " ++ msg) w.currentTasks s hrs
  unfold handleError
  simp only [heff]
  rw [if_neg (show ¬ 5 < s.recentErrors + 1 from by omega)]
  rw [if_pos hid]
  rw [removeWorker_single _ w w.threadId (by exact hw) rfl hid]
  unfold addWorker
  dsimp only
  rw [manage_assign_one now _ s.nextThreadId l x 0 0 [] (by simp) (Nat.le_refl 0)
    (by exact hrs) (by exact hpr) (by exact hit) (by exact hpp)]
  rfl

/-- Claim C3: dispatch always removes and sends the most recently added
pending item (LIFO): whatever the dispatch loop does afterwards, the item
`assignNextTask` posts first is the last element of the pending queue; and
in the concrete run with work list `[1, 2, 3]` (`[A, B, C]`), one worker and
per-worker concurrency 1, the worker receives the items in the order
`3, 2, 1` (`C, B, A`) and the run then completes. -/
theorem claim_C3 (s : MainState τ) (now tid : Nat) (l : List τ) (x : τ)
    (h : s.iterable = l ++ [x]) :
    (∃ rest, (assignNextTask now s tid).dispatched = s.dispatched ++ x :: rest) ∧
    (startWorking 0 lifoStart).toOption.map (fun s1 =>
      ((handleMessage 30 (handleMessage 20 (handleMessage 10 s1 1
          (WorkerMsg.complete 3 "r3")) 1 (WorkerMsg.complete 2 "r2")) 1
          (WorkerMsg.complete 1 "r1")).dispatched,
       (handleMessage 30 (handleMessage 20 (handleMessage 10 s1 1
          (WorkerMsg.complete 3 "r3")) 1 (WorkerMsg.complete 2 "r2")) 1
          (WorkerMsg.complete 1 "r1")).completed)) = some ([3, 2, 1], true) := by
  constructor
  · rw [assignNextTask]
    split
    next heq =>
      rw [h, List.getLast?_concat] at heq
      exact absurd heq (by simp)
    next nextIterable heq =>
      rw [h, List.getLast?_concat] at heq
      obtain rfl : x = nextIterable := by
        injection heq
      set s3 := updateWorker
          {s with iterable := s.iterable.dropLast,
                  dispatched := s.dispatched ++ [x]} tid (fun w =>
            {w with sent := w.sent + 1,
                    currentTasks := w.currentTasks ++ [⟨now, x⟩]}) with hs3
      have hd3 : s3.dispatched = s.dispatched ++ [x] := by
        rw [hs3]
        rfl
      rcases hfw : findWorker s3 tid with _ | w
      · simp only [hfw]
        exact ⟨[], by rw [hd3]⟩
      · simp only [hfw]
        split
        · obtain ⟨r, hr⟩ := (manageTail now s3 tid).dispatchedPrefix
          refine ⟨r, ?_⟩
          rw [← hr, hd3]
          simp
        · exact ⟨[], by rw [hd3]⟩
  · have h1 : startWorking 0 lifoStart = Except.ok
        (⟨[⟨1, 1, 0, [⟨0, 3⟩], false⟩], [1, 2], true, true, false, false, [], 1, 1,
          ⟨0, 3, 0, 0, 0, 0⟩, 0, [], 2, false, false, [3], [1], [], []⟩ : MainState Nat) := by
      unfold startWorking lifoStart setIterableList initMain
      norm_num [spawnLoop, addWorker]
      rw [manage_assign_one 0 _ 1 [1, 2] 3 0 0 [] rfl (Nat.le_refl 0) rfl rfl rfl rfl]
      decide
    have h2 : handleMessage 10
        (⟨[⟨1, 1, 0, [⟨0, 3⟩], false⟩], [1, 2], true, true, false, false, [], 1, 1,
          ⟨0, 3, 0, 0, 0, 0⟩, 0, [], 2, false, false, [3], [1], [], []⟩ : MainState Nat)
        1 (WorkerMsg.complete 3 "r3") =
        (⟨[⟨1, 2, 1, [⟨10, 2⟩], false⟩], [1], true, true, false, false, [], 1, 1,
          ⟨0, 3, 1, 0, 0, 0⟩, 0, [], 2, false, false, [3, 2], [1], [], []⟩ : MainState Nat) := by
      unfold handleMessage onTaskCompletion
      norm_num [updateWorker, removeFirstTask]
      rw [manage_assign_one 10 _ 1 [1] 2 1 1 [] rfl (Nat.le_refl 1) rfl rfl rfl rfl]
      decide
    have h3 : handleMessage 20
        (⟨[⟨1, 2, 1, [⟨10, 2⟩], false⟩], [1], true, true, false, false, [], 1, 1,
          ⟨0, 3, 1, 0, 0, 0⟩, 0, [], 2, false, false, [3, 2], [1], [], []⟩ : MainState Nat)
        1 (WorkerMsg.complete 2 "r2") =
        (⟨[⟨1, 3, 2, [⟨20, 1⟩], false⟩], [], true, true, false, false, [], 1, 1,
          ⟨0, 3, 2, 0, 0, 0⟩, 0, [], 2, false, false, [3, 2, 1], [1], [], []⟩ : MainState Nat) := by
      unfold handleMessage onTaskCompletion
      norm_num [updateWorker, removeFirstTask]
      rw [manage_assign_one 20 _ 1 [] 1 2 2 [] rfl (Nat.le_refl 2) rfl rfl rfl rfl]
      decide
    have h4 : handleMessage 30
        (⟨[⟨1, 3, 2, [⟨20, 1⟩], false⟩], [], true, true, false, false, [], 1, 1,
          ⟨0, 3, 2, 0, 0, 0⟩, 0, [], 2, false, false, [3, 2, 1], [1], [], []⟩ : MainState Nat)
        1 (WorkerMsg.complete 1 "r1") =
        (⟨[], [], true, true, false, false, [], 1, 1,
          ⟨0, 3, 3, 0, 0, 0⟩, 0, [], 2, false, true, [3, 2, 1], [1], [1], []⟩ : MainState Nat) := by
      unfold handleMessage onTaskCompletion
      norm_num [updateWorker, removeFirstTask]
      rw [manage_drained 30 _ 1 3 [] rfl (by decide) rfl rfl]
      decide
    rw [h1]
    dsimp only [Except.toOption, Option.map]
    rw [h2, h3, h4]

/-- Witness for C3 at the concrete scenario input: the scenario state's
pending queue ends in `3`, and the claim instantiated there. -/
theorem claim_C3_witness :
    lifoStart.iterable = [1, 2] ++ [3] ∧
    (∃ rest, (assignNextTask 0 lifoStart 1).dispatched = lifoStart.dispatched ++ 3 :: rest) := by
  refine ⟨by decide, ?_⟩
  exact (claim_C3 lifoStart 0 1 [1, 2] 3 (by decide)).1

/-- Claim C4: every worker crash increments the sliding crash counter and
schedules its own decrement 5000 ms later, and a crash that pushes the
counter above 5 makes the run fatal; in particular 6 crashes within 5
seconds halt the run, while 4 crashes spaced 2 seconds apart leave the run
alive with all four replacement workers spawned. -/
theorem claim_C4 (s : MainState τ) (w : Worker τ) (now : Nat) (msg : String) :
    ((handleError now s w msg).recentErrors = s.recentErrors + 1 ∧
     (handleError now s w msg).pendingDecrements = s.pendingDecrements ++ [now + 5000] ∧
     (5 < s.recentErrors + 1 → (handleError now s w msg).fatal = true)) ∧
    (runCrashes crashPoolState [0, 500, 1000, 1500, 2000, 2500]).fatal = true ∧
    (runCrashes crashPoolState [0, 2000, 4000, 6000]).fatal = false ∧
    (runCrashes crashPoolState [0, 2000, 4000, 6000]).spawned = [2, 3, 4, 5] := by
  have hgen := handleError_crashCounter s w now msg
  have eA1 : crashEvent crashPoolState 0 =
      (⟨[⟨2, 1, 0, [⟨0, 96⟩], false⟩], [91, 92, 93, 94, 95], true, true, false, false,
        [], 1, 1, ⟨0, 0, 1, 0, 0, 0⟩, 1, [5000], 3, false, false, [96], [2], [1],
        []⟩ : MainState Nat) := by
    unfold crashEvent
    rw [if_neg (by decide)]
    norm_num [fireDueTimers, crashPoolState, initMain]
    rw [handleError_step _ _ 0 "Simulated crash" [91, 92, 93, 94, 95] 96
      rfl (by decide) (by decide) rfl rfl rfl rfl]
    decide
  have eA2 : crashEvent
      (⟨[⟨2, 1, 0, [⟨0, 96⟩], false⟩], [91, 92, 93, 94, 95], true, true, false, false,
        [], 1, 1, ⟨0, 0, 1, 0, 0, 0⟩, 1, [5000], 3, false, false, [96], [2], [1],
        []⟩ : MainState Nat) 500 =
      (⟨[⟨3, 1, 0, [⟨500, 95⟩], false⟩], [91, 92, 93, 94], true, true, false, false,
        [96], 1, 1, ⟨0, 0, 2, 0, 1, 1⟩, 2, [5000, 5500], 4, false, false, [96, 95],
        [2, 3], [1, 2], [LogCall.error 96 "Thread crashed - Simulated crash", LogCall.failure 96 "Thread crashed - Simulated crash"]⟩ : MainState Nat) := by
    unfold crashEvent
    rw [if_neg (by decide)]
    norm_num [fireDueTimers]
    rw [handleError_step _ _ 500 "Simulated crash" [91, 92, 93, 94] 95
      rfl (by decide) (by decide) rfl rfl rfl rfl]
    decide
  have eA3 : crashEvent
      (⟨[⟨3, 1, 0, [⟨500, 95⟩], false⟩], [91, 92, 93, 94], true, true, false, false,
        [96], 1, 1, ⟨0, 0, 2, 0, 1, 1⟩, 2, [5000, 5500], 4, false, false, [96, 95],
        [2, 3], [1, 2], [LogCall.error 96 "Thread crashed - Simulated crash", LogCall.failure 96 "Thread crashed - Simulated crash"]⟩ : MainState Nat) 1000 =
      (⟨[⟨4, 1, 0, [⟨1000, 94⟩], false⟩], [91, 92, 93], true, true, false, false,
        [96, 95], 1, 1, ⟨0, 0, 3, 0, 2, 2⟩, 3, [5000, 5500, 6000], 5, false, false,
        [96, 95, 94], [2, 3, 4], [1, 2, 3], [LogCall.error 96 "Thread crashed - Simulated crash", LogCall.failure 96 "Thread crashed - Simulated crash", LogCall.error 95 "Thread crashed - Simulated crash", LogCall.failure 95 "Thread crashed - Simulated crash"]⟩ : MainState Nat) := by
    unfold crashEvent
    rw [if_neg (by decide)]
    norm_num [fireDueTimers]
    rw [handleError_step _ _ 1000 "Simulated crash" [91, 92, 93] 94
      rfl (by decide) (by decide) rfl rfl rfl rfl]
    decide
  have eA4 : crashEvent
      (⟨[⟨4, 1, 0, [⟨1000, 94⟩], false⟩], [91, 92, 93], true, true, false, false,
        [96, 95], 1, 1, ⟨0, 0, 3, 0, 2, 2⟩, 3, [5000, 5500, 6000], 5, false, false,
        [96, 95, 94], [2, 3, 4], [1, 2, 3], [LogCall.error 96 "Thread crashed - Simulated crash", LogCall.failure 96 "Thread crashed - Simulated crash", LogCall.error 95 "Thread crashed - Simulated crash", LogCall.failure 95 "Thread crashed - Simulated crash"]⟩ : MainState Nat) 1500 =
      (⟨[⟨5, 1, 0, [⟨1500, 93⟩], false⟩], [91, 92], true, true, false, false,
        [96, 95, 94], 1, 1, ⟨0, 0, 4, 0, 3, 3⟩, 4, [5000, 5500, 6000, 6500], 6,
        false, false, [96, 95, 94, 93], [2, 3, 4, 5], [1, 2, 3, 4],
        [LogCall.error 96 "Thread crashed - Simulated crash", LogCall.failure 96 "Thread crashed - Simulated crash", LogCall.error 95 "Thread crashed - Simulated crash", LogCall.failure 95 "Thread crashed - Simulated crash", LogCall.error 94 "Thread crashed - Simulated crash", LogCall.failure 94 "Thread crashed - Simulated crash"]⟩ : MainState Nat) := by
    unfold crashEvent
    rw [if_neg (by decide)]
    norm_num [fireDueTimers]
    rw [handleError_step _ _ 1500 "Simulated crash" [91, 92] 93
      rfl (by decide) (by decide) rfl rfl rfl rfl]
    decide
  have eA5 : crashEvent
      (⟨[⟨5, 1, 0, [⟨1500, 93⟩], false⟩], [91, 92], true, true, false, false,
        [96, 95, 94], 1, 1, ⟨0, 0, 4, 0, 3, 3⟩, 4, [5000, 5500, 6000, 6500], 6,
        false, false, [96, 95, 94, 93], [2, 3, 4, 5], [1, 2, 3, 4],
        [LogCall.error 96 "Thread crashed - Simulated crash", LogCall.failure 96 "Thread crashed - Simulated crash", LogCall.error 95 "Thread crashed - Simulated crash", LogCall.failure 95 "Thread crashed - Simulated crash", LogCall.error 94 "Thread crashed - Simulated crash", LogCall.failure 94 "Thread crashed - Simulated crash"]⟩ : MainState Nat) 2000 =
      (⟨[⟨6, 1, 0, [⟨2000, 92⟩], false⟩], [91], true, true, false, false,
        [96, 95, 94, 93], 1, 1, ⟨0, 0, 5, 0, 4, 4⟩, 5, [5000, 5500, 6000, 6500, 7000],
        7, false, false, [96, 95, 94, 93, 92], [2, 3, 4, 5, 6], [1, 2, 3, 4, 5],
        [LogCall.error 96 "Thread crashed - Simulated crash", LogCall.failure 96 "Thread crashed - Simulated crash", LogCall.error 95 "Thread crashed - Simulated crash", LogCall.failure 95 "Thread crashed - Simulated crash", LogCall.error 94 "Thread crashed - Simulated crash", LogCall.failure 94 "Thread crashed - Simulated crash", LogCall.error 93 "Thread crashed - Simulated crash", LogCall.failure 93 "Thread crashed - Simulated crash"]⟩ : MainState Nat) := by
    unfold crashEvent
    rw [if_neg (by decide)]
    norm_num [fireDueTimers]
    rw [handleError_step _ _ 2000 "Simulated crash" [91] 92
      rfl (by decide) (by decide) rfl rfl rfl rfl]
    decide
  have eA6 : (crashEvent
      (⟨[⟨6, 1, 0, [⟨2000, 92⟩], false⟩], [91], true, true, false, false,
        [96, 95, 94, 93], 1, 1, ⟨0, 0, 5, 0, 4, 4⟩, 5, [5000, 5500, 6000, 6500, 7000],
        7, false, false, [96, 95, 94, 93, 92], [2, 3, 4, 5, 6], [1, 2, 3, 4, 5],
        [LogCall.error 96 "Thread crashed - Simulated crash", LogCall.failure 96 "Thread crashed - Simulated crash", LogCall.error 95 "Thread crashed - Simulated crash", LogCall.failure 95 "Thread crashed - Simulated crash", LogCall.error 94 "Thread crashed - Simulated crash", LogCall.failure 94 "Thread crashed - Simulated crash", LogCall.error 93 "Thread crashed - Simulated crash", LogCall.failure 93 "Thread crashed - Simulated crash"]⟩ : MainState Nat) 2500).fatal = true := by
    unfold crashEvent
    rw [if_neg (by decide)]
    norm_num [fireDueTimers]
    exact (handleError_crashCounter _ _ 2500 "Simulated crash").2.2.1 (by norm_num)
  have eB2 : crashEvent
      (⟨[⟨2, 1, 0, [⟨0, 96⟩], false⟩], [91, 92, 93, 94, 95], true, true, false, false,
        [], 1, 1, ⟨0, 0, 1, 0, 0, 0⟩, 1, [5000], 3, false, false, [96], [2], [1],
        []⟩ : MainState Nat) 2000 =
      (⟨[⟨3, 1, 0, [⟨2000, 95⟩], false⟩], [91, 92, 93, 94], true, true, false, false,
        [96], 1, 1, ⟨0, 0, 2, 0, 1, 1⟩, 2, [5000, 7000], 4, false, false, [96, 95],
        [2, 3], [1, 2], [LogCall.error 96 "Thread crashed - Simulated crash", LogCall.failure 96 "Thread crashed - Simulated crash"]⟩ : MainState Nat) := by
    unfold crashEvent
    rw [if_neg (by decide)]
    norm_num [fireDueTimers]
    rw [handleError_step _ _ 2000 "Simulated crash" [91, 92, 93, 94] 95
      rfl (by decide) (by decide) rfl rfl rfl rfl]
    decide
  have eB3 : crashEvent
      (⟨[⟨3, 1, 0, [⟨2000, 95⟩], false⟩], [91, 92, 93, 94], true, true, false, false,
        [96], 1, 1, ⟨0, 0, 2, 0, 1, 1⟩, 2, [5000, 7000], 4, false, false, [96, 95],
        [2, 3], [1, 2], [LogCall.error 96 "Thread crashed - Simulated crash", LogCall.failure 96 "Thread crashed - Simulated crash"]⟩ : MainState Nat) 4000 =
      (⟨[⟨4, 1, 0, [⟨4000, 94⟩], false⟩], [91, 92, 93], true, true, false, false,
        [96, 95], 1, 1, ⟨0, 0, 3, 0, 2, 2⟩, 3, [5000, 7000, 9000], 5, false, false,
        [96, 95, 94], [2, 3, 4], [1, 2, 3], [LogCall.error 96 "Thread crashed - Simulated crash", LogCall.failure 96 "Thread crashed - Simulated crash", LogCall.error 95 "Thread crashed - Simulated crash", LogCall.failure 95 "Thread crashed - Simulated crash"]⟩ : MainState Nat) := by
    unfold crashEvent
    rw [if_neg (by decide)]
    norm_num [fireDueTimers]
    rw [handleError_step _ _ 4000 "Simulated crash" [91, 92, 93] 94
      rfl (by decide) (by decide) rfl rfl rfl rfl]
    decide
  have eB4 : crashEvent
      (⟨[⟨4, 1, 0, [⟨4000, 94⟩], false⟩], [91, 92, 93], true, true, false, false,
        [96, 95], 1, 1, ⟨0, 0, 3, 0, 2, 2⟩, 3, [5000, 7000, 9000], 5, false, false,
        [96, 95, 94], [2, 3, 4], [1, 2, 3], [LogCall.error 96 "Thread crashed - Simulated crash", LogCall.failure 96 "Thread crashed - Simulated crash", LogCall.error 95 "Thread crashed - Simulated crash", LogCall.failure 95 "Thread crashed - Simulated crash"]⟩ : MainState Nat) 6000 =
      (⟨[⟨5, 1, 0, [⟨6000, 93⟩], false⟩], [91, 92], true, true, false, false,
        [96, 95, 94], 1, 1, ⟨0, 0, 4, 0, 3, 3⟩, 3, [7000, 9000, 11000], 6, false,
        false, [96, 95, 94, 93], [2, 3, 4, 5], [1, 2, 3, 4],
        [LogCall.error 96 "Thread crashed - Simulated crash", LogCall.failure 96 "Thread crashed - Simulated crash", LogCall.error 95 "Thread crashed - Simulated crash", LogCall.failure 95 "Thread crashed - Simulated crash", LogCall.error 94 "Thread crashed - Simulated crash", LogCall.failure 94 "Thread crashed - Simulated crash"]⟩ : MainState Nat) := by
    unfold crashEvent
    rw [if_neg (by decide)]
    norm_num [fireDueTimers]
    rw [handleError_step _ _ 6000 "Simulated crash" [91, 92] 93
      rfl (by decide) (by decide) rfl rfl rfl rfl]
    decide
  refine ⟨⟨hgen.1, hgen.2.1, hgen.2.2.1⟩, ?_, ?_, ?_⟩
  · show (List.foldl crashEvent crashPoolState [0, 500, 1000, 1500, 2000, 2500]).fatal = true
    simp only [List.foldl_cons, List.foldl_nil]
    rw [eA1, eA2, eA3, eA4, eA5]
    exact eA6
  · show (List.foldl crashEvent crashPoolState [0, 2000, 4000, 6000]).fatal = false
    simp only [List.foldl_cons, List.foldl_nil]
    rw [eA1, eB2, eB3, eB4]
  · show (List.foldl crashEvent crashPoolState [0, 2000, 4000, 6000]).spawned = [2, 3, 4, 5]
    simp only [List.foldl_cons, List.foldl_nil]
    rw [eA1, eB2, eB3, eB4]

/-- Witness for C4 at a concrete crash: one crash on the fresh pool takes the
counter from 0 to 1, together with the two closed scenario facts. -/
theorem claim_C4_witness :
    (handleError 0 crashPoolState ⟨1, 0, 0, [], false⟩ "boom").recentErrors = 1 ∧
    (runCrashes crashPoolState [0, 500, 1000, 1500, 2000, 2500]).fatal = true ∧
    (runCrashes crashPoolState [0, 2000, 4000, 6000]).spawned = [2, 3, 4, 5] := by
  obtain ⟨⟨h1, _, _⟩, h2, _, h4⟩ := claim_C4 crashPoolState ⟨1, 0, 0, [], false⟩ 0 "boom"
  exact ⟨h1, h2, h4⟩

/-- The dispatch loop on a two-worker pool whose second worker is the target:
like `manage_assign_one`, the target pulls the most recently added pending
item and stops at its concurrency cap; the other worker is untouched. -/
theorem manage_assign_two (now : Nat) (s : MainState τ) (u : Worker τ) (tid : Nat)
    (l : List τ) (x : τ) (a b : Nat) (ts : List (TaskRec τ))
    (hw : s.workers = [u, ⟨tid, a, b, ts, false⟩]) (hu : ¬ u.threadId = tid)
    (hb : b ≤ a)
    (hrs : s.retryStarted = false) (hpr : s.processing = true)
    (hit : s.iterable = l ++ [x]) (hpp : s.parallelProcesses = 1) :
    manageIdleWorker now s tid =
      {s with workers := [u, ⟨tid, a + 1, b, ts ++ [⟨now, x⟩], false⟩],
              iterable := l,
              dispatched := s.dispatched ++ [x]} := by
  have hrc : retryCondition s = false := by
    unfold retryCondition
    rw [hit, hrs]
    simp
  rw [manageIdleWorker, hrc]
  simp only [Bool.false_eq_true, if_false]
  unfold findWorker
  rw [hw]
  simp only [List.find?, decide_eq_false hu, decide_True]
  have htc : taskCondition s ⟨tid, a, b, ts, false⟩ = true := by
    unfold taskCondition
    rw [hpr, hit]
    simp
  rw [htc]
  simp only [if_true]
  rw [assignNextTask]
  split
  next heq =>
    rw [hit, List.getLast?_concat] at heq
    exact absurd heq (by simp)
  next nextIterable heq =>
    rw [hit, List.getLast?_concat] at heq
    obtain rfl : nextIterable = x := by
      injection heq with h
      exact h.symm
    simp only [hit, updateWorker, hw, List.map_cons, List.map_nil, if_pos rfl, if_neg hu]
    unfold findWorker
    simp only [List.map_cons, List.map_nil, List.find?, if_true, eq_self_iff_true,
      decide_True, decide_eq_false hu, List.dropLast_concat]
    rw [hpp]
    rw [if_neg (by omega)]

/-- A hung-thread scan over a single-worker pool reduces to the loop body on
that worker: recycle it when the hung check fires, otherwise leave the state
alone (the scan then stops, the pool having at most one element). -/
theorem recycle_single (now timeout : Nat) (s : MainState τ) (w : Worker τ)
    (hw : s.workers = [w]) :
    recycleHungThreads now timeout s =
      (if isHungCheck now timeout w then
        handleError now s w "Worker thread was hung" else s) := by
  obtain ⟨ws, A1, A2, A3, A4, A5, A6, A7, A8, A9, A10, A11, A12, A13, A14, A15,
    A16, A17, A18⟩ := s
  dsimp only at hw
  subst hw
  unfold recycleHungThreads
  rw [recycleLoop]
  rw [dif_pos (by simp)]
  dsimp only
  simp only [List.get_eq_getElem, List.getElem_cons_zero]
  cases hval : isHungCheck now timeout w with
  | false =>
    simp only [Bool.false_eq_true, if_false]
    rw [recycleLoop]
    rw [dif_neg (by simp)]
    simp only [ite_self]
  | true =>
    simp only [if_true]
    have hmem : w.threadId ∈
        ({ workers := [w], iterable := A1, iterableSet := A2, processing := A3,
            retryStarted := A4, retryFailed := A5, failedTasks := A6,
            parallelProcesses := A7, threads := A8, stats := A9, recentErrors := A10,
            pendingDecrements := A11, nextThreadId := A12, fatal := A13,
            completed := A14, dispatched := A15, spawned := A16, terminated := A17,
            logCalls := A18 } : MainState τ).workers.map Worker.threadId := by
      simp
    have hlen := handleErrorLen now _ w "Worker thread was hung" hmem
    rw [recycleLoop]
    rw [dif_neg (by simp only [List.length_cons, List.length_nil] at hlen ⊢; omega)]
    simp only [ite_self]

/-- Amended claim C5: a worker **visited** by the periodic scan is recycled
iff at least half of its in-flight items have been outstanding longer than
the timeout (so, on a single-worker pool, the scan is exactly the
hung-or-not dichotomy below, with the full crash-recovery effects in the
hung case); the spec's two 4-item instances hold.  The original per-worker
universal claim fails on multi-worker pools because the live-array loop
skips the worker that slides into a recycled worker's position. -/
theorem claim_C5_amended (now timeout : Nat) (s : MainState τ) (w : Worker τ)
    (l : List τ) (x : τ)
    (hw : s.workers = [w]) (hid : w.threadId ≠ 0) (hre : s.recentErrors + 1 ≤ 5)
    (hrs : s.retryStarted = false) (hpr : s.processing = true)
    (hit : s.iterable = l ++ [x]) (hpp : s.parallelProcesses = 1) :
    (isHungCheck now timeout w = false → recycleHungThreads now timeout s = s) ∧
    (isHungCheck now timeout w = true →
      recycleHungThreads now timeout s =
        {s with workers := [⟨s.nextThreadId, 1, 0, [⟨now, x⟩], false⟩],
                iterable := l,
                failedTasks := s.failedTasks ++ w.currentTasks.map TaskRec.task,
                stats := {s.stats with
                            processedTasks := s.stats.processedTasks + 1,
                            failed := s.stats.failed + w.currentTasks.length,
                            errors := s.stats.errors + w.currentTasks.length},
                recentErrors := s.recentErrors + 1,
                pendingDecrements := s.pendingDecrements ++ [now + 5000],
                nextThreadId := s.nextThreadId + 1,
                dispatched := s.dispatched ++ [x],
                spawned := s.spawned ++ [s.nextThreadId],
                terminated := s.terminated ++ [w.threadId],
                logCalls := s.logCalls ++
                  errFailCalls "Thread crashed - Worker thread was hung"
                    w.currentTasks}) ∧
    (recycleHungThreads 100 50 (fourTaskState [0, 0, 0, 90])).terminated = [1] ∧
    (recycleHungThreads 100 50 (fourTaskState [0, 0, 0, 90])).workers.map
      Worker.threadId = [2] ∧
    recycleHungThreads 100 50 (fourTaskState [0, 90, 90, 90]) =
      fourTaskState [0, 90, 90, 90] := by
  have hsc1 : (recycleHungThreads 100 50 (fourTaskState [0, 0, 0, 90])).terminated
        = [1] ∧
      (recycleHungThreads 100 50 (fourTaskState [0, 0, 0, 90])).workers.map
        Worker.threadId = [2] := by
    rw [recycle_single 100 50 _ ⟨1, 4, 0, [⟨0, 40⟩, ⟨0, 40⟩, ⟨0, 40⟩, ⟨90, 130⟩],
      false⟩ (by decide)]
    rw [if_pos (by norm_num [isHungCheck])]
    rw [handleError_step _ _ 100 "Worker thread was hung" [] 55
      (by decide) (by decide) (by decide) rfl rfl rfl rfl]
    exact ⟨by decide, by decide⟩
  refine ⟨?_, ?_, hsc1.1, hsc1.2, ?_⟩
  · intro hh
    rw [recycle_single now timeout s w hw, hh]
    simp
  · intro hh
    rw [recycle_single now timeout s w hw, hh]
    simp only [if_true]
    exact handleError_step s w now "Worker thread was hung" l x hw hid hre hrs hpr
      hit hpp
  · rw [recycle_single 100 50 _ ⟨1, 4, 0, [⟨0, 40⟩, ⟨90, 130⟩, ⟨90, 130⟩,
      ⟨90, 130⟩], false⟩ (by decide)]
    rw [if_neg (by norm_num [isHungCheck])]

/-- Witness for C5 (amended) at the spec's own instance: the 3-of-4 worker
is recycled, the 1-of-4 worker's pool is untouched. -/
theorem claim_C5_witness :
    (recycleHungThreads 100 50 (fourTaskState [0, 0, 0, 90])).terminated = [1] ∧
    (recycleHungThreads 100 50 (fourTaskState [0, 0, 0, 90])).workers.map
      Worker.threadId = [2] ∧
    recycleHungThreads 100 50 (fourTaskState [0, 90, 90, 90]) =
      fourTaskState [0, 90, 90, 90] := by
  obtain ⟨_, _, h3, h4, h5⟩ := claim_C5_amended 100 50 (fourTaskState [0, 0, 0, 90])
    ⟨1, 4, 0, [⟨0, 40⟩, ⟨0, 40⟩, ⟨0, 40⟩, ⟨90, 130⟩], false⟩ [] 55
    (by decide) (by decide) (by decide) rfl rfl rfl rfl
  exact ⟨h3, h4, h5⟩

/-- Counterexample to C5 as stated: in a two-worker pool where **both**
workers are hung (each with its single in-flight item far past the timeout),
the scan recycles the first worker, the second slides into index 0, the
live-array loop's next index lands on the freshly appended replacement — and
the still-hung second worker survives the scan untouched: the final pool is
`[2, 3]` and only thread 1 was terminated. -/
theorem claim_C5_counterexample :
    isHungCheck 100 50 (⟨2, 1, 0, [⟨0, 22⟩], false⟩ : Worker Nat) = true ∧
    twoHungState.workers.map Worker.threadId = [1, 2] ∧
    (recycleHungThreads 100 50 twoHungState).workers.map Worker.threadId
      = [2, 3] ∧
    (recycleHungThreads 100 50 twoHungState).terminated = [1] := by
  have hcheck : isHungCheck 100 50 (⟨2, 1, 0, [⟨0, 22⟩], false⟩ : Worker Nat)
      = true := by
    norm_num [isHungCheck]
  have hH : handleError 100 twoHungState ⟨1, 1, 0, [⟨0, 11⟩], false⟩
      "Worker thread was hung" =
      (⟨[⟨2, 1, 0, [⟨0, 22⟩], false⟩, ⟨3, 1, 0, [⟨100, 33⟩], false⟩], [], true,
        true, false, false, [11], 1, 2, ⟨0, 0, 1, 0, 1, 1⟩, 1, [5100], 4, false,
        false, [33], [3], [1],
        [LogCall.error 11 "Thread crashed - Worker thread was hung", LogCall.failure 11 "Thread crashed - Worker thread was hung"]⟩ : MainState Nat) := by
    have h1 : handleError 100 twoHungState ⟨1, 1, 0, [⟨0, 11⟩], false⟩
        "Worker thread was hung" = manageIdleWorker 100
        (⟨[⟨2, 1, 0, [⟨0, 22⟩], false⟩, ⟨3, 0, 0, [], false⟩], [33], true, true,
          false, false, [11], 1, 2, ⟨0, 0, 1, 0, 1, 1⟩, 1, [5100], 4, false, false,
          [], [3], [1],
          [LogCall.error 11 "Thread crashed - Worker thread was hung", LogCall.failure 11 "Thread crashed - Worker thread was hung"]⟩ : MainState Nat) 3 := rfl
    rw [h1, manage_assign_two 100 _ ⟨2, 1, 0, [⟨0, 22⟩], false⟩ 3 [] 33 0 0 []
      rfl (by decide) (by decide) rfl rfl rfl rfl]
    decide
  have hR : recycleHungThreads 100 50 twoHungState =
      (⟨[⟨2, 1, 0, [⟨0, 22⟩], false⟩, ⟨3, 1, 0, [⟨100, 33⟩], false⟩], [], true,
        true, false, false, [11], 1, 2, ⟨0, 0, 1, 0, 1, 1⟩, 1, [5100], 4, false,
        false, [33], [3], [1],
        [LogCall.error 11 "Thread crashed - Worker thread was hung", LogCall.failure 11 "Thread crashed - Worker thread was hung"]⟩ : MainState Nat) := by
    unfold recycleHungThreads
    rw [show twoHungState =
      (⟨[⟨1, 1, 0, [⟨0, 11⟩], false⟩, ⟨2, 1, 0, [⟨0, 22⟩], false⟩], [33], true,
        true, false, false, [], 1, 2, ⟨0, 0, 0, 0, 0, 0⟩, 0, [], 3, false, false,
        [], [], [], []⟩ : MainState Nat) from rfl]
    have hc1 : isHungCheck 100 50 (⟨1, 1, 0, [⟨0, 11⟩], false⟩ : Worker Nat)
        = true := by
      norm_num [isHungCheck]
    have hc2 : ¬ isHungCheck 100 50 (⟨3, 1, 0, [⟨100, 33⟩], false⟩ : Worker Nat)
        = true := by
      norm_num [isHungCheck]
    rw [recycleLoop]
    rw [dif_pos (by decide)]
    dsimp only
    simp only [List.get_eq_getElem, List.getElem_cons_zero]
    rw [if_pos hc1]
    rw [show (⟨[⟨1, 1, 0, [⟨0, 11⟩], false⟩, ⟨2, 1, 0, [⟨0, 22⟩], false⟩], [33],
        true, true, false, false, [], 1, 2, ⟨0, 0, 0, 0, 0, 0⟩, 0, [], 3, false,
        false, [], [], [], []⟩ : MainState Nat) = twoHungState from rfl]
    rw [hH]
    rw [if_neg (by decide)]
    rw [recycleLoop]
    rw [dif_pos (by decide)]
    dsimp only
    simp only [List.get_eq_getElem, List.getElem_cons_succ, List.getElem_cons_zero]
    rw [if_neg hc2]
    rw [if_neg (by decide)]
    rw [recycleLoop]
    rw [dif_neg (by decide)]
  refine ⟨hcheck, by decide, ?_, ?_⟩
  · rw [hR]
    decide
  · rw [hR]

/-- Amended claim C10: a worker with no in-flight records always passes the
hung check (0 items past the timeout meets the at-least-half threshold of
0), and when the periodic scan **visits** such a worker while the bumped
crash counter stays within the threshold, it sends the idle worker down the
crash-recovery path: the counter is incremented with its decrement
scheduled, the worker is terminated, and a replacement is spawned — proven
here on the single-worker pool, where visitation is guaranteed.  Not every
idle worker is visited (the live-array scan skips the worker that slides
into a recycled one's slot), and a visit that pushes the counter over the
threshold raises the fatal circuit-breaker error instead, terminating and
replacing nothing. -/
theorem claim_C10_amended (now timeout : Nat) (s : MainState τ) (w : Worker τ)
    (hw : s.workers = [w]) (hct : w.currentTasks = []) (hid : w.threadId ≠ 0)
    (hre : s.recentErrors + 1 ≤ 5) :
    isHungCheck now timeout w = true ∧
    (recycleHungThreads now timeout s).recentErrors = s.recentErrors + 1 ∧
    (recycleHungThreads now timeout s).pendingDecrements
      = s.pendingDecrements ++ [now + 5000] ∧
    (∃ r, (recycleHungThreads now timeout s).terminated
      = s.terminated ++ [w.threadId] ++ r) ∧
    (recycleHungThreads now timeout s).spawned = s.spawned ++ [s.nextThreadId] := by
  have hhung : isHungCheck now timeout w = true := by
    simp [isHungCheck, hct]
  have hcc := handleError_crashCounter s w now "Worker thread was hung"
  have hterm : ∃ r, (handleError now s w "Worker thread was hung").terminated
      = s.terminated ++ [w.threadId] ++ r := by
    unfold handleError
    rw [hct]
    simp only [crashOutcomes, List.foldl_nil]
    rw [if_neg (show ¬ 5 < s.recentErrors + 1 from by omega)]
    rw [if_pos hid]
    rw [removeWorker_single _ w w.threadId (by exact hw) rfl hid]
    unfold addWorker
    dsimp only
    obtain ⟨r, hr⟩ := (manageTail (τ := τ) now _ _).terminatedExt
    exact ⟨r, hr⟩
  rw [recycle_single now timeout s w hw, if_pos hhung]
  exact ⟨hhung, hcc.1, hcc.2.1, hterm, (hcc.2.2.2 hre).2 hid⟩

/-- Witness for C10 (amended) at the visited idle-worker scenario state:
the task-less worker is terminated by the scan, the counter is bumped, and
thread 2 is spawned. -/
theorem claim_C10_witness :
    emptyWorkerState.workers = [⟨1, 2, 2, [], false⟩] ∧
    isHungCheck 100 50 (⟨1, 2, 2, [], false⟩ : Worker Nat) = true ∧
    (recycleHungThreads 100 50 emptyWorkerState).recentErrors = 1 ∧
    (∃ r, (recycleHungThreads 100 50 emptyWorkerState).terminated = [1] ++ r) ∧
    (recycleHungThreads 100 50 emptyWorkerState).spawned = [2] := by
  obtain ⟨h1, h2, _, h4, h5⟩ := claim_C10_amended 100 50 emptyWorkerState
    ⟨1, 2, 2, [], false⟩ (by decide) rfl (by decide) (by decide)
  exact ⟨by decide, h1, h2, h4, h5⟩

/-- Counterexample to C10 as stated ("for **every** worker whose in-flight
record list is empty at scan time, the scan classifies it as hung and it is
removed, terminated and replaced"): in the pool [hung worker 1, idle worker
2], recycling worker 1 shifts idle worker 2 into the freed slot, the next
loop index lands on the freshly appended replacement, and the idle worker is
never visited — after the scan it sits in the pool unterminated, with no
replacement spawned for it.  And on an idle single-worker pool with 5 recent
crashes the visit raises the fatal circuit-breaker error instead: the idle
worker is neither terminated nor replaced there either. -/
theorem claim_C10_counterexample :
    (⟨2, 5, 5, [], false⟩ : Worker Nat) ∈ hungIdleState.workers ∧
    (recycleHungThreads 100 50 hungIdleState).terminated = [1] ∧
    (⟨2, 5, 5, [], false⟩ : Worker Nat)
      ∈ (recycleHungThreads 100 50 hungIdleState).workers ∧
    (recycleHungThreads 100 50 hungIdleState).spawned = [3] ∧
    (recycleHungThreads 100 50 {emptyWorkerState with recentErrors := 5}).fatal
      = true ∧
    (recycleHungThreads 100 50
      {emptyWorkerState with recentErrors := 5}).terminated = [] ∧
    (recycleHungThreads 100 50 {emptyWorkerState with recentErrors := 5}).spawned
      = [] := by
  have hH : handleError 100 hungIdleState ⟨1, 1, 0, [⟨0, 11⟩], false⟩
      "Worker thread was hung" =
      (⟨[⟨2, 5, 5, [], false⟩, ⟨3, 1, 0, [⟨100, 33⟩], false⟩], [], true, true,
        false, false, [11], 1, 2, ⟨0, 0, 1, 0, 1, 1⟩, 1, [5100], 4, false, false,
        [33], [3], [1],
        [LogCall.error 11 "Thread crashed - Worker thread was hung", LogCall.failure 11 "Thread crashed - Worker thread was hung"]⟩ : MainState Nat) := by
    have h1 : handleError 100 hungIdleState ⟨1, 1, 0, [⟨0, 11⟩], false⟩
        "Worker thread was hung" = manageIdleWorker 100
        (⟨[⟨2, 5, 5, [], false⟩, ⟨3, 0, 0, [], false⟩], [33], true, true, false,
          false, [11], 1, 2, ⟨0, 0, 1, 0, 1, 1⟩, 1, [5100], 4, false, false, [],
          [3], [1],
          [LogCall.error 11 "Thread crashed - Worker thread was hung", LogCall.failure 11 "Thread crashed - Worker thread was hung"]⟩ : MainState Nat) 3 := rfl
    rw [h1, manage_assign_two 100 _ ⟨2, 5, 5, [], false⟩ 3 [] 33 0 0 []
      rfl (by decide) (by decide) rfl rfl rfl rfl]
    decide
  have hR : recycleHungThreads 100 50 hungIdleState =
      (⟨[⟨2, 5, 5, [], false⟩, ⟨3, 1, 0, [⟨100, 33⟩], false⟩], [], true, true,
        false, false, [11], 1, 2, ⟨0, 0, 1, 0, 1, 1⟩, 1, [5100], 4, false, false,
        [33], [3], [1],
        [LogCall.error 11 "Thread crashed - Worker thread was hung", LogCall.failure 11 "Thread crashed - Worker thread was hung"]⟩ : MainState Nat) := by
    have hc1 : isHungCheck 100 50 (⟨1, 1, 0, [⟨0, 11⟩], false⟩ : Worker Nat)
        = true := by
      norm_num [isHungCheck]
    have hc2 : ¬ isHungCheck 100 50 (⟨3, 1, 0, [⟨100, 33⟩], false⟩ : Worker Nat)
        = true := by
      norm_num [isHungCheck]
    unfold recycleHungThreads
    rw [show hungIdleState =
      (⟨[⟨1, 1, 0, [⟨0, 11⟩], false⟩, ⟨2, 5, 5, [], false⟩], [33], true, true,
        false, false, [], 1, 2, ⟨0, 0, 0, 0, 0, 0⟩, 0, [], 3, false, false, [],
        [], [], []⟩ : MainState Nat) from rfl]
    rw [recycleLoop]
    rw [dif_pos (by decide)]
    dsimp only
    simp only [List.get_eq_getElem, List.getElem_cons_zero]
    rw [if_pos hc1]
    rw [show (⟨[⟨1, 1, 0, [⟨0, 11⟩], false⟩, ⟨2, 5, 5, [], false⟩], [33], true,
        true, false, false, [], 1, 2, ⟨0, 0, 0, 0, 0, 0⟩, 0, [], 3, false, false,
        [], [], [], []⟩ : MainState Nat) = hungIdleState from rfl]
    rw [hH]
    rw [if_neg (by decide)]
    rw [recycleLoop]
    rw [dif_pos (by decide)]
    dsimp only
    simp only [List.get_eq_getElem, List.getElem_cons_succ, List.getElem_cons_zero]
    rw [if_neg hc2]
    rw [if_neg (by decide)]
    rw [recycleLoop]
    rw [dif_neg (by decide)]
  have hF : recycleHungThreads 100 50 {emptyWorkerState with recentErrors := 5} =
      (⟨[⟨1, 2, 2, [], false⟩], [77], true, true, true, false, [], 1, 1,
        ⟨0, 0, 1, 0, 0, 0⟩, 6, [5100], 2, true, false, [], [], [], []⟩
        : MainState Nat) := by
    have hcIdle : isHungCheck 100 50 (⟨1, 2, 2, [], false⟩ : Worker Nat)
        = true := by
      norm_num [isHungCheck]
    unfold recycleHungThreads
    rw [show ({emptyWorkerState with recentErrors := 5} : MainState Nat) =
      (⟨[⟨1, 2, 2, [], false⟩], [77], true, true, true, false, [], 1, 1,
        ⟨0, 0, 0, 0, 0, 0⟩, 5, [], 2, false, false, [], [], [], []⟩
        : MainState Nat) from rfl]
    rw [recycleLoop]
    rw [dif_pos (by decide)]
    dsimp only
    simp only [List.get_eq_getElem, List.getElem_cons_zero]
    rw [if_pos hcIdle]
    rw [show handleError 100
      (⟨[⟨1, 2, 2, [], false⟩], [77], true, true, true, false, [], 1, 1,
        ⟨0, 0, 0, 0, 0, 0⟩, 5, [], 2, false, false, [], [], [], []⟩
        : MainState Nat) (⟨1, 2, 2, [], false⟩ : Worker Nat)
        "Worker thread was hung" =
      (⟨[⟨1, 2, 2, [], false⟩], [77], true, true, true, false, [], 1, 1,
        ⟨0, 0, 1, 0, 0, 0⟩, 6, [5100], 2, true, false, [], [], [], []⟩
        : MainState Nat) from by decide]
    rw [if_pos (by decide)]
  refine ⟨by decide, ?_, ?_, ?_, ?_, ?_, ?_⟩
  · rw [hR]
  · rw [hR]
    decide
  · rw [hR]
  · rw [hF]
  · rw [hF]
  · rw [hF]

end ClaimTheorems

end BatchProcessor
